import Mathlib

/-!
Verification development for the rain-sol-withdrawal client.

The TypeScript sources are shallowly embedded:
* bytes are `Nat` values (< 256 by construction where they come from decoding),
* buffers are `List Nat`,
* hex strings are `String`,
* fallible code returns `Except String _` with the error messages of the source.

The keccak-256 primitive used throughout the source is crypto-js `SHA3` with
`outputLength 256`, which is the original Keccak (0x01 padding, rate 1088),
modelled here concretely so that digests are computable.
-/

set_option maxRecDepth 8192

namespace Rain

/-! ## Hex primitives (model of `toString(16)`, `padStart`, Buffer hex) -/

/-- One lowercase hex digit, as produced by JavaScript `toString(16)`. -/
def hexDigitChar (n : Nat) : Char :=
  if n < 10 then Char.ofNat (48 + n) else Char.ofNat (87 + n)

/-- Digits of `n` in base 16, most significant first, with `fuel` bounding the
recursion depth (structural recursion so that the kernel can evaluate it);
`0` renders as `"0"`, matching JavaScript `Number.prototype.toString(16)`. -/
def natToHexAux : Nat → Nat → List Char
  | 0, n => [hexDigitChar (n % 16)]
  | fuel + 1, n =>
    if n < 16 then [hexDigitChar n]
    else natToHexAux fuel (n / 16) ++ [hexDigitChar (n % 16)]

/-- JavaScript `n.toString(16)` for nonnegative `n` (`n` itself is an adequate
fuel bound, since `n / 16 < n` for `n ≥ 16`). -/
def natToHex (n : Nat) : String := ⟨natToHexAux n n⟩

/-- JavaScript `s.padStart(len, '0')`. -/
def padZero (s : String) (len : Nat) : String :=
  ⟨List.replicate (len - s.data.length) '0' ++ s.data⟩

/-- Lowercase hex rendering of a byte list, two characters per byte
(each byte is rendered with `toString(16).padStart(2, '0')`).  Models both
`HashUtils.encodeBytes` and Node `Buffer.prototype.toString('hex')` /
crypto-js `WordArray.toString()` (identical on byte values < 256). -/
def bytesToHex (bs : List Nat) : String :=
  ⟨(bs.map fun b => (padZero (natToHex b) 2).data).flatten⟩

/-- Value of one hex character as `parseInt(c, 16)`; characters outside
`[0-9a-fA-F]` yield 0 (our inputs only contain valid hex). -/
def hexCharVal (c : Char) : Nat :=
  if 48 ≤ c.toNat ∧ c.toNat ≤ 57 then c.toNat - 48
  else if 97 ≤ c.toNat ∧ c.toNat ≤ 102 then c.toNat - 87
  else if 65 ≤ c.toNat ∧ c.toNat ≤ 70 then c.toNat - 55
  else 0

/-- Hex-string character list to bytes, two characters per byte; a trailing
lone character parses alone, as `crypto.enc.Hex.parse` does with `substr(i, 2)`. -/
def hexDecodeCore : List Char → List Nat
  | [] => []
  | [c] => [hexCharVal c]
  | c1 :: c2 :: rest => (hexCharVal c1 * 16 + hexCharVal c2) :: hexDecodeCore rest

/-- Model of `crypto.enc.Hex.parse`: hex string to bytes. -/
def hexDecode (s : String) : List Nat := hexDecodeCore s.data

/-- UTF-8 bytes of a string; all strings hashed by the source are ASCII, where
UTF-8 bytes coincide with code points. -/
def strBytes (s : String) : List Nat := s.data.map Char.toNat

/-- Model of JavaScript `Array.prototype.join('')` on strings. -/
def joinAll (l : List String) : String := ⟨(l.map String.data).flatten⟩

/-! ## Keccak-256 (crypto-js `SHA3` with `outputLength 256`)

The 1600-bit state is packed into a single `Nat`: lane `(x, y)` (64 bits,
little-endian byte order) occupies bits `[64 * (x + 5 * y), 64 * (x + 5 * y) + 64)`.
This matches the flat little-endian byte order in which blocks are absorbed
and the digest is squeezed. -/

def mask64 : Nat := 2 ^ 64 - 1

/-- 64-bit left rotation. -/
def rotl64 (x n : Nat) : Nat :=
  (((x <<< n) &&& mask64) ||| (x >>> (64 - n)))

/-- Lane `i` of a packed state. -/
def getLane (st i : Nat) : Nat := (st >>> (64 * i)) &&& mask64

/-- The 24 Keccak round constants (decimal). -/
def keccakRC : List Nat :=
  [1, 32898, 9223372036854808714,
   9223372039002292224, 32907, 2147483649,
   9223372039002292353, 9223372036854808585, 138,
   136, 2147516425, 2147483658,
   2147516555, 9223372036854775947, 9223372036854808713,
   9223372036854808579, 9223372036854808578, 9223372036854775936,
   32778, 9223372039002259466, 9223372039002292353,
   9223372036854808704, 2147483649, 9223372039002292232]

/-- One Keccak-f[1600] round on a packed state, fully unrolled: θ (`c`, `d`),
then ρ and π (lane `(x, y)` of the θ result, at index `x + 5y`, rotates by the
standard offset into position `(y, (2x + 3y) % 5)`, giving the `b` lanes), then
χ (the `e` lanes) and ι (the round constant `rc` into lane 0). -/
def keccakRound (st rc : Nat) : Nat :=
  let c0 := getLane st 0 ^^^ getLane st 5 ^^^ getLane st 10 ^^^ getLane st 15 ^^^ getLane st 20
  let c1 := getLane st 1 ^^^ getLane st 6 ^^^ getLane st 11 ^^^ getLane st 16 ^^^ getLane st 21
  let c2 := getLane st 2 ^^^ getLane st 7 ^^^ getLane st 12 ^^^ getLane st 17 ^^^ getLane st 22
  let c3 := getLane st 3 ^^^ getLane st 8 ^^^ getLane st 13 ^^^ getLane st 18 ^^^ getLane st 23
  let c4 := getLane st 4 ^^^ getLane st 9 ^^^ getLane st 14 ^^^ getLane st 19 ^^^ getLane st 24
  let d0 := c4 ^^^ rotl64 c1 1
  let d1 := c0 ^^^ rotl64 c2 1
  let d2 := c1 ^^^ rotl64 c3 1
  let d3 := c2 ^^^ rotl64 c4 1
  let d4 := c3 ^^^ rotl64 c0 1
  let b0 := getLane st 0 ^^^ d0
  let b1 := rotl64 (getLane st 6 ^^^ d1) 44
  let b2 := rotl64 (getLane st 12 ^^^ d2) 43
  let b3 := rotl64 (getLane st 18 ^^^ d3) 21
  let b4 := rotl64 (getLane st 24 ^^^ d4) 14
  let b5 := rotl64 (getLane st 3 ^^^ d3) 28
  let b6 := rotl64 (getLane st 9 ^^^ d4) 20
  let b7 := rotl64 (getLane st 10 ^^^ d0) 3
  let b8 := rotl64 (getLane st 16 ^^^ d1) 45
  let b9 := rotl64 (getLane st 22 ^^^ d2) 61
  let b10 := rotl64 (getLane st 1 ^^^ d1) 1
  let b11 := rotl64 (getLane st 7 ^^^ d2) 6
  let b12 := rotl64 (getLane st 13 ^^^ d3) 25
  let b13 := rotl64 (getLane st 19 ^^^ d4) 8
  let b14 := rotl64 (getLane st 20 ^^^ d0) 18
  let b15 := rotl64 (getLane st 4 ^^^ d4) 27
  let b16 := rotl64 (getLane st 5 ^^^ d0) 36
  let b17 := rotl64 (getLane st 11 ^^^ d1) 10
  let b18 := rotl64 (getLane st 17 ^^^ d2) 15
  let b19 := rotl64 (getLane st 23 ^^^ d3) 56
  let b20 := rotl64 (getLane st 2 ^^^ d2) 62
  let b21 := rotl64 (getLane st 8 ^^^ d3) 55
  let b22 := rotl64 (getLane st 14 ^^^ d4) 39
  let b23 := rotl64 (getLane st 15 ^^^ d0) 41
  let b24 := rotl64 (getLane st 21 ^^^ d1) 2
  let e0 := b0 ^^^ ((mask64 ^^^ b1) &&& b2) ^^^ rc
  let e1 := b1 ^^^ ((mask64 ^^^ b2) &&& b3)
  let e2 := b2 ^^^ ((mask64 ^^^ b3) &&& b4)
  let e3 := b3 ^^^ ((mask64 ^^^ b4) &&& b0)
  let e4 := b4 ^^^ ((mask64 ^^^ b0) &&& b1)
  let e5 := b5 ^^^ ((mask64 ^^^ b6) &&& b7)
  let e6 := b6 ^^^ ((mask64 ^^^ b7) &&& b8)
  let e7 := b7 ^^^ ((mask64 ^^^ b8) &&& b9)
  let e8 := b8 ^^^ ((mask64 ^^^ b9) &&& b5)
  let e9 := b9 ^^^ ((mask64 ^^^ b5) &&& b6)
  let e10 := b10 ^^^ ((mask64 ^^^ b11) &&& b12)
  let e11 := b11 ^^^ ((mask64 ^^^ b12) &&& b13)
  let e12 := b12 ^^^ ((mask64 ^^^ b13) &&& b14)
  let e13 := b13 ^^^ ((mask64 ^^^ b14) &&& b10)
  let e14 := b14 ^^^ ((mask64 ^^^ b10) &&& b11)
  let e15 := b15 ^^^ ((mask64 ^^^ b16) &&& b17)
  let e16 := b16 ^^^ ((mask64 ^^^ b17) &&& b18)
  let e17 := b17 ^^^ ((mask64 ^^^ b18) &&& b19)
  let e18 := b18 ^^^ ((mask64 ^^^ b19) &&& b15)
  let e19 := b19 ^^^ ((mask64 ^^^ b15) &&& b16)
  let e20 := b20 ^^^ ((mask64 ^^^ b21) &&& b22)
  let e21 := b21 ^^^ ((mask64 ^^^ b22) &&& b23)
  let e22 := b22 ^^^ ((mask64 ^^^ b23) &&& b24)
  let e23 := b23 ^^^ ((mask64 ^^^ b24) &&& b20)
  let e24 := b24 ^^^ ((mask64 ^^^ b20) &&& b21)
  e0 ||| (e1 <<< 64) ||| (e2 <<< 128) ||| (e3 <<< 192) ||| (e4 <<< 256) |||
    (e5 <<< 320) ||| (e6 <<< 384) ||| (e7 <<< 448) ||| (e8 <<< 512) |||
    (e9 <<< 576) ||| (e10 <<< 640) ||| (e11 <<< 704) ||| (e12 <<< 768) |||
    (e13 <<< 832) ||| (e14 <<< 896) ||| (e15 <<< 960) ||| (e16 <<< 1024) |||
    (e17 <<< 1088) ||| (e18 <<< 1152) ||| (e19 <<< 1216) ||| (e20 <<< 1280) |||
    (e21 <<< 1344) ||| (e22 <<< 1408) ||| (e23 <<< 1472) ||| (e24 <<< 1536)

/-- The full Keccak-f[1600] permutation. -/
def keccakF (st : Nat) : Nat :=
  keccakRC.foldl keccakRound st

/-- Original Keccak padding (domain bit 0x01, rate 136 bytes). -/
def keccakPad (msg : List Nat) : List Nat :=
  let padLen := 136 - msg.length % 136
  if padLen = 1 then msg ++ [0x81]
  else msg ++ [0x01] ++ List.replicate (padLen - 2) 0 ++ [0x80]

/-- Split a (padded) message into 136-byte blocks, with `fuel` bounding the
recursion depth (structural recursion so that the kernel can evaluate it). -/
def splitBlocksAux : Nat → List Nat → List (List Nat)
  | 0, _ => []
  | fuel + 1, l =>
    if l = [] then [] else l.take 136 :: splitBlocksAux fuel (l.drop 136)

/-- Split a (padded) message into 136-byte blocks (`l.length` is an adequate
fuel bound, since each step drops at least one element). -/
def splitBlocks (l : List Nat) : List (List Nat) := splitBlocksAux l.length l

/-- A byte list as one little-endian natural number. -/
def bytesToNatLE (bs : List Nat) : Nat :=
  bs.foldr (fun b acc => b + 256 * acc) 0

/-- Absorb one 136-byte block (the rate occupies the low 17 lanes, which in the
packed representation are exactly the low 1088 bits) and permute. -/
def absorbBlock (st : Nat) (block : List Nat) : Nat :=
  keccakF (st ^^^ bytesToNatLE block)

/-- Keccak-256 over a byte list: 32-byte digest (the low 32 bytes of the final
state, little-endian). -/
def keccakBytes (msg : List Nat) : List Nat :=
  let finalSt := (splitBlocks (keccakPad msg)).foldl absorbBlock 0
  (List.range 32).map fun i => (finalSt >>> (8 * i)) % 256

/-! ## HashUtils (src/hashUtils.ts) -/

namespace HashUtils

/-- `HashUtils.keccak256Hex`: parses the hex argument back to bytes and hashes
those bytes, returning lowercase hex. -/
def keccak256Hex (data : String) : String :=
  bytesToHex (keccakBytes (hexDecode data))

/-- `HashUtils.keccak256`: hashes the UTF-8 bytes of the string argument. -/
def keccak256 (data : String) : String :=
  bytesToHex (keccakBytes (strBytes data))

/-- `HashUtils.encodeString`. -/
def encodeString (value : String) : String := keccak256 value

/-- `HashUtils.encodeAddress`: `value.toBuffer().toString('hex')`; the address
is the 32-byte public key. -/
def encodeAddress (value : List Nat) : String := bytesToHex value

/-- `HashUtils.encodeUInt32`: `value.toString(16).padStart(8, '0')`.
Note there is no range check in the source: values at or above `2 ^ 32` render
with more than 8 hex characters. -/
def encodeUInt32 (value : Nat) : String := padZero (natToHex value) 8

/-- `HashUtils.encodeUInt64`: `value.toString(16).padStart(16, '0')`; likewise
unchecked. -/
def encodeUInt64 (value : Nat) : String := padZero (natToHex value) 16

/-- `HashUtils.encodeBytes`. -/
def encodeBytes (value : List Nat) : String := bytesToHex value

end HashUtils

/-! ## Collateral codec (src/collateral.ts) -/

/-- The `WithdrawCollateral` instruction data record (`BN` values are
nonnegative big integers, modelled as `Nat`). -/
structure WithdrawCollateral where
  amountOfAsset : Nat
  signatureExpirationTime : Nat
  coordinatorSignatureSalt : List Nat
deriving DecidableEq, Repr

namespace Collateral

/-- `Collateral.encode()`: hex of the two prefix bytes `\x19\x01`. -/
def encode : String := HashUtils.encodeBytes [0x19, 0x01]

/-- `Collateral.DOMAIN_TYPE_HASH`. -/
def DOMAIN_TYPE_HASH : String :=
  HashUtils.encodeString
    "EIP712Domain(string name,string version,uint256 chainId,address verifyingContract,bytes32 salt)"

/-- `Collateral.domainSeparatorEncode`. -/
def domainSeparatorEncode (name version : String) (chainId : Nat)
    (verifyingContract : List Nat) (salt : List Nat) : String :=
  HashUtils.keccak256Hex (joinAll
    [DOMAIN_TYPE_HASH,
     HashUtils.encodeString name,
     HashUtils.encodeString version,
     HashUtils.encodeUInt64 chainId,
     HashUtils.encodeAddress verifyingContract,
     HashUtils.encodeBytes salt])

/-- `Collateral.WITHDRAW_TYPE_HASH`. -/
def WITHDRAW_TYPE_HASH : String :=
  HashUtils.encodeString
    "Withdraw(address user,address asset,uint256 amount,address recipient,uint256 nonce)"

/-- The `encodedStructure` local of `Collateral.encodeWithdrawMessage`
(the hex concatenation that is hashed into the custody struct hash). -/
def withdrawStructEncoded (collateral sender receiver asset : List Nat)
    (withdraw : WithdrawCollateral) (adminFundsNonce : Nat) : String :=
  joinAll
    [WITHDRAW_TYPE_HASH,
     HashUtils.encodeAddress sender,
     HashUtils.encodeAddress collateral,
     HashUtils.encodeAddress asset,
     HashUtils.encodeUInt64 withdraw.amountOfAsset,
     HashUtils.encodeAddress receiver,
     HashUtils.encodeUInt32 adminFundsNonce]

/-- `Collateral.encodeWithdrawMessage` (the custody struct hash, hex). -/
def encodeWithdrawMessage (collateral sender receiver asset : List Nat)
    (withdraw : WithdrawCollateral) (adminFundsNonce : Nat) : String :=
  HashUtils.keccak256Hex
    (withdrawStructEncoded collateral sender receiver asset withdraw adminFundsNonce)

/-- The `encodedData` local of `Collateral.getWithdrawMessage`. -/
def withdrawDataEncoded (collateral sender receiver asset : List Nat)
    (withdraw : WithdrawCollateral) (salt : List Nat) (adminFundsNonce : Nat) : String :=
  joinAll
    [encode,
     domainSeparatorEncode "Collateral" "2" 900 collateral salt,
     encodeWithdrawMessage collateral sender receiver asset withdraw adminFundsNonce]

/-- `Collateral.getWithdrawMessage`: the custody final digest, as bytes
(`Buffer.from(hex, 'hex')`). -/
def getWithdrawMessage (collateral sender receiver asset : List Nat)
    (withdraw : WithdrawCollateral) (salt : List Nat) (adminFundsNonce : Nat) : List Nat :=
  hexDecode (HashUtils.keccak256Hex
    (withdrawDataEncoded collateral sender receiver asset withdraw salt adminFundsNonce))

end Collateral

/-! ## Coordinator codec (src/coordinator.ts) -/

namespace Coordinator

/-- `Coordinator.encode()`. -/
def encode : String := HashUtils.encodeBytes [0x19, 0x01]

/-- `Coordinator.DOMAIN_TYPE_HASH` (same domain type string as the custody kind). -/
def DOMAIN_TYPE_HASH : String :=
  HashUtils.encodeString
    "EIP712Domain(string name,string version,uint256 chainId,address verifyingContract,bytes32 salt)"

/-- `Coordinator.domainSeparatorEncode`. -/
def domainSeparatorEncode (name version : String) (chainId : Nat)
    (verifyingContract : List Nat) (salt : List Nat) : String :=
  HashUtils.keccak256Hex (joinAll
    [DOMAIN_TYPE_HASH,
     HashUtils.encodeString name,
     HashUtils.encodeString version,
     HashUtils.encodeUInt64 chainId,
     HashUtils.encodeAddress verifyingContract,
     HashUtils.encodeBytes salt])

/-- `Coordinator.WITHDRAW_TYPE_HASH`: distinct type string, with `address
collateral` and a trailing `uint256 expiresAt`. -/
def WITHDRAW_TYPE_HASH : String :=
  HashUtils.encodeString
    "Withdraw(address user,address collateral,address asset,uint256 amount,address recipient,uint256 nonce,uint256 expiresAt)"

/-- The `encodedStructure` local of `Coordinator.encodeWithdrawMessage`. -/
def withdrawStructEncoded (collateral sender receiver asset : List Nat)
    (withdrawRequest : WithdrawCollateral) (adminFundsNonce : Nat) : String :=
  joinAll
    [WITHDRAW_TYPE_HASH,
     HashUtils.encodeAddress sender,
     HashUtils.encodeAddress collateral,
     HashUtils.encodeAddress asset,
     HashUtils.encodeUInt64 withdrawRequest.amountOfAsset,
     HashUtils.encodeAddress receiver,
     HashUtils.encodeUInt32 adminFundsNonce,
     HashUtils.encodeUInt64 withdrawRequest.signatureExpirationTime]

/-- `Coordinator.encodeWithdrawMessage` (the coordinator struct hash, hex). -/
def encodeWithdrawMessage (collateral sender receiver asset : List Nat)
    (withdrawRequest : WithdrawCollateral) (adminFundsNonce : Nat) : String :=
  HashUtils.keccak256Hex
    (withdrawStructEncoded collateral sender receiver asset withdrawRequest adminFundsNonce)

/-- The `encodedData` local of `Coordinator.getWithdrawMessage`. -/
def withdrawDataEncoded (collateral coordinator sender receiver asset : List Nat)
    (withdraw : WithdrawCollateral) (adminFundsNonce : Nat) : String :=
  joinAll
    [encode,
     domainSeparatorEncode "Coordinator" "2" 900 coordinator withdraw.coordinatorSignatureSalt,
     encodeWithdrawMessage collateral sender receiver asset withdraw adminFundsNonce]

/-- `Coordinator.getWithdrawMessage`: the coordinator final digest, as bytes. -/
def getWithdrawMessage (collateral coordinator sender receiver asset : List Nat)
    (withdraw : WithdrawCollateral) (adminFundsNonce : Nat) : List Nat :=
  hexDecode (HashUtils.keccak256Hex
    (withdrawDataEncoded collateral coordinator sender receiver asset withdraw adminFundsNonce))

end Coordinator

/-! ## Node `Buffer` model

A buffer is a `List Nat` of bytes.  `Buffer.copy`-style writes keep the
destination length, truncating the source if it would run past the end. -/

/-- Byte at index `i` (0 past the end, as for a zero-filled read). -/
def bget (b : List Nat) (i : Nat) : Nat := b.getD i 0

/-- `src.copy(dest, off)`: overwrite `dest` starting at `off` with `src`,
keeping `dest`'s length. -/
def writeBytes (dest : List Nat) (off : Nat) (src : List Nat) : List Nat :=
  dest.take off ++ src.take (dest.length - off) ++ dest.drop (off + src.length)

/-- Read `len` bytes starting at `off`. -/
def readBytes (b : List Nat) (off len : Nat) : List Nat :=
  (b.drop off).take len

/-- The two little-endian bytes of a 16-bit value (as `writeUInt16LE` stores
them; all values written by the builder are in range, see
`Ed25519ExtendedProgram`). -/
def le16 (v : Nat) : List Nat := [v % 256, v / 256 % 256]

/-- `buf.writeUInt16LE(v, off)` for in-range `v`. -/
def writeUInt16LE (buf : List Nat) (v off : Nat) : List Nat :=
  writeBytes buf off (le16 v)

/-- `buf.writeUInt8(v, off)`: Node validates `v ≤ 255` and throws a
`RangeError` otherwise. -/
def writeUInt8E (buf : List Nat) (v off : Nat) : Except String (List Nat) :=
  if v ≤ 255 then .ok (writeBytes buf off [v])
  else .error "The value of value is out of range. It must be >= 0 and <= 255."

/-! ## Ed25519 instruction builder (src/utils/ed25519.program.ts) -/

/-- `INSTRUCTION_INDEX = 2 ** 16 - 1`, the "current instruction" sentinel. -/
def INSTRUCTION_INDEX : Nat := 2 ^ 16 - 1

def SIGNATURE_STRUCTURE_SIZE : Nat := 14
def PUBKEY_SIZE : Nat := 32
def SIGNATURE_SIZE : Nat := 64
def MESSAGE_SIZE : Nat := 32
def SIGNATURE_DATA_SIZE : Nat := PUBKEY_SIZE + SIGNATURE_SIZE + MESSAGE_SIZE
def SIGNATURE_DATA_PLUS_STRUCTURE_SIZE : Nat :=
  SIGNATURE_STRUCTURE_SIZE + SIGNATURE_DATA_SIZE

/-- One `(signer, signature, message)` triple handed to the builder. -/
structure SignatureVerificationData where
  signer : List Nat
  signature : List Nat
  message : List Nat
deriving DecidableEq, Repr

namespace SignatureStructure

/-- `this.structureOffset = signatureIndex * SIGNATURE_STRUCTURE_SIZE + 2`. -/
def structureOffset (signatureIndex : Nat) : Nat :=
  signatureIndex * SIGNATURE_STRUCTURE_SIZE + 2

/-- `this.publicKeyOffset = signatureIndex * SIGNATURE_DATA_SIZE + signaturesStartOffset`. -/
def publicKeyOffset (signatureIndex signaturesStartOffset : Nat) : Nat :=
  signatureIndex * SIGNATURE_DATA_SIZE + signaturesStartOffset

/-- `this.signatureOffset = this.publicKeyOffset + 32`. -/
def signatureOffset (signatureIndex signaturesStartOffset : Nat) : Nat :=
  publicKeyOffset signatureIndex signaturesStartOffset + 32

/-- `this.messageOffset = this.signatureOffset + 64`. -/
def messageOffset (signatureIndex signaturesStartOffset : Nat) : Nat :=
  signatureOffset signatureIndex signaturesStartOffset + 64

/-- `SignatureStructure.toBuffer()`: a 14-byte buffer with the seven
little-endian 16-bit writes of the source, at offsets 0, 2, 4, 6, 8, 10, 12. -/
def toBuffer (signatureIndex signaturesStartOffset : Nat) : List Nat :=
  let buffer := List.replicate SIGNATURE_STRUCTURE_SIZE 0
  let buffer := writeUInt16LE buffer (signatureOffset signatureIndex signaturesStartOffset) 0
  let buffer := writeUInt16LE buffer INSTRUCTION_INDEX 2
  let buffer := writeUInt16LE buffer (publicKeyOffset signatureIndex signaturesStartOffset) 4
  let buffer := writeUInt16LE buffer INSTRUCTION_INDEX 6
  let buffer := writeUInt16LE buffer (messageOffset signatureIndex signaturesStartOffset) 8
  let buffer := writeUInt16LE buffer MESSAGE_SIZE 10
  writeUInt16LE buffer INSTRUCTION_INDEX 12

end SignatureStructure

namespace Ed25519ExtendedProgram

/-- The body of the `for` loop of `createSignatureVerificationInstruction`,
processing the entries from index `i` on: validate sizes (throwing the
source's error strings), then write the descriptor and the public key,
signature and message data of each entry. -/
def writeLoop (signaturesStartOffset : Nat) :
    List SignatureVerificationData → Nat → List Nat → Except String (List Nat)
  | [], _, buf => .ok buf
  | sig :: rest, i, buf =>
    if sig.signature.length ≠ SIGNATURE_SIZE then
      .error "Signature size must be 64 bytes"
    else if sig.message.length ≠ MESSAGE_SIZE then
      .error "Message size must be 32 bytes"
    else
      let buf := writeBytes buf (SignatureStructure.structureOffset i)
        (SignatureStructure.toBuffer i signaturesStartOffset)
      let buf := writeBytes buf (SignatureStructure.publicKeyOffset i signaturesStartOffset)
        sig.signer
      let buf := writeBytes buf (SignatureStructure.signatureOffset i signaturesStartOffset)
        sig.signature
      let buf := writeBytes buf (SignatureStructure.messageOffset i signaturesStartOffset)
        sig.message
      writeLoop signaturesStartOffset rest (i + 1) buf

/-- `Ed25519ExtendedProgram.createSignatureVerificationInstruction`: returns
the instruction-data blob (the produced `TransactionInstruction` carries no
account keys and a fixed program id, so the blob is the whole observable
content). -/
def createSignatureVerificationInstruction
    (signatures : List SignatureVerificationData) : Except String (List Nat) :=
  let dataBuffer := List.replicate
    (signatures.length * SIGNATURE_DATA_PLUS_STRUCTURE_SIZE + 2) 0
  match writeUInt8E dataBuffer signatures.length 0 with
  | .error e => .error e
  | .ok buf =>
    writeLoop (signatures.length * SIGNATURE_STRUCTURE_SIZE + 2) signatures 0 buf

/-- The spec's `InvalidEntrySize` failure class: the two entry-size error
strings thrown inside the loop. -/
def isInvalidEntrySizeError (e : String) : Prop :=
  e = "Signature size must be 64 bytes" ∨ e = "Message size must be 32 bytes"

instance (e : String) : Decidable (isInvalidEntrySizeError e) := by
  unfold isInvalidEntrySizeError; infer_instance

end Ed25519ExtendedProgram

/-! ## Orchestrator (src/withdraw.ts) -/

/-- The on-chain `collateralAdminSignatures` account shape used by the
orchestrator: the recorded approver public keys. -/
structure CollateralAdminSignatures where
  signers : List (List Nat)
deriving DecidableEq, Repr

/-- Observable outcome of `submitCollateralSignature`: the instruction-data
blobs submitted through the transport, and the returned value (or the
propagated failure). -/
structure SubmitOutcome where
  calls : List (List Nat)
  result : Except String (List Nat)
deriving Repr

/-- The source's submission condition (line 172 of src/withdraw.ts):
`!collateralSignatureAccount || collateralSignatureAccount.signers.every(
signer => !signer.equals(sender.publicKey))`. -/
def shouldSubmit (fetched : Option CollateralAdminSignatures)
    (senderPk : List Nat) : Bool :=
  match fetched with
  | none => true
  | some acc => acc.signers.all fun signer => !(signer == senderPk)

/-- Model of `submitCollateralSignature`.  External effects are inputs:
`collateralMessageSalt` is the `randomBytes(32)` draw, `senderSignature` the
`nacl.sign.detached` output, `pda` the `findProgramAddressSync` result,
`fetched` the `fetchNullable` result for the derived address, and
`sendResult` the response of `sendAndConfirmTransaction` (used only if a
transaction is actually sent).  The function mirrors the source: compute the
custody digest, and unless the fetched account already lists the sender as a
signer, build the verification instruction and submit; any thrown error
(instruction construction or transport) propagates. -/
def submitCollateralSignatureModel
    (collateralAddress senderPk recipientAddress mintAddress : List Nat)
    (withdrawRequest : WithdrawCollateral)
    (collateralMessageSalt : List Nat)
    (adminFundsNonce : Nat)
    (senderSignature : List Nat)
    (pda : List Nat)
    (fetched : Option CollateralAdminSignatures)
    (sendResult : Except String String) : SubmitOutcome :=
  let collateralMessage := Collateral.getWithdrawMessage collateralAddress senderPk
    recipientAddress mintAddress withdrawRequest collateralMessageSalt adminFundsNonce
  if shouldSubmit fetched senderPk then
    match Ed25519ExtendedProgram.createSignatureVerificationInstruction
        [⟨senderPk, senderSignature, collateralMessage⟩] with
    | .error e => ⟨[], .error e⟩
    | .ok instr =>
      match sendResult with
      | .error e => ⟨[instr], .error e⟩
      | .ok _ => ⟨[instr], .ok pda⟩
  else ⟨[], .ok pda⟩

/-- Model of the executor-resolution step of `executeWithdrawal` (lines 270-281
of src/withdraw.ts): fail when the coordinator's executor list is missing or
empty, otherwise use `executors.find(c => c)` — the first (truthy) entry — as
the verification signer.  The unreachable `none` branch of `find?` on a
non-empty list models the source's non-null assertion. -/
def resolveExecutor (executors : Option (List (List Nat))) :
    Except String (List Nat) :=
  match executors with
  | none => .error "Not executors found in the given coordinator"
  | some es =>
    if es.length = 0 then .error "Not executors found in the given coordinator"
    else
      match es.find? fun _ => true with
      | some c => .ok c
      | none => .error "Not executors found in the given coordinator"

/-! ## Descriptor and claim-side definitions -/

namespace Ed25519ExtendedProgram

/-- The 14 descriptor bytes of entry `i`, as the seven little-endian 16-bit
fields the source writes: signature offset, sentinel, public-key offset,
sentinel, message offset, message size, sentinel. -/
def descBytes (i start : Nat) : List Nat :=
  le16 (SignatureStructure.signatureOffset i start) ++ le16 INSTRUCTION_INDEX ++
    le16 (SignatureStructure.publicKeyOffset i start) ++ le16 INSTRUCTION_INDEX ++
    le16 (SignatureStructure.messageOffset i start) ++ le16 MESSAGE_SIZE ++
    le16 INSTRUCTION_INDEX

/-- Entry `j`'s descriptor and data segments are in place in `out`
(`N` is the total entry count). -/
def entryCorrect (out : List Nat) (N j : Nat) (e : SignatureVerificationData) : Prop :=
  (∀ m, m < 14 → bget out (j * 14 + 2 + m) = bget (descBytes j (N * 14 + 2)) m) ∧
  (∀ m, m < 32 → bget out (N * 14 + 2 + j * 128 + m) = bget e.signer m) ∧
  (∀ m, m < 64 → bget out (N * 14 + 2 + j * 128 + 32 + m) = bget e.signature m) ∧
  (∀ m, m < 32 → bget out (N * 14 + 2 + j * 128 + 96 + m) = bget e.message m)

end Ed25519ExtendedProgram

/-- The custody final digest exactly as claim C1 words it: the keccak-256
digest of the hex-decoded concatenation of the bytes `0x19 0x01`, the
domain-separator hash (name "Collateral", version "2", chain id 900,
verifying entity the collateral address, the given salt) and the custody
struct hash over the declared type string and the encoded fields. -/
def c1SpecDigest (collateral sender receiver asset salt : List Nat)
    (amount nonce : Nat) : List Nat :=
  hexDecode (HashUtils.keccak256Hex (joinAll
    [HashUtils.encodeBytes [0x19, 0x01],
     HashUtils.keccak256Hex (joinAll
       [HashUtils.encodeString "EIP712Domain(string name,string version,uint256 chainId,address verifyingContract,bytes32 salt)",
        HashUtils.encodeString "Collateral",
        HashUtils.encodeString "2",
        HashUtils.encodeUInt64 900,
        HashUtils.encodeAddress collateral,
        HashUtils.encodeBytes salt]),
     HashUtils.keccak256Hex (joinAll
       [HashUtils.encodeString "Withdraw(address user,address asset,uint256 amount,address recipient,uint256 nonce)",
        HashUtils.encodeAddress sender,
        HashUtils.encodeAddress collateral,
        HashUtils.encodeAddress asset,
        HashUtils.encodeUInt64 amount,
        HashUtils.encodeAddress receiver,
        HashUtils.encodeUInt32 nonce])]))

/-- Decoding an entry back from the blob at the documented offsets
(public key at `i*128 + N*14 + 2`, the 64-byte signature 32 bytes after it,
the 32-byte message 64 bytes after that). -/
def c4DecodeEntry (blob : List Nat) (N i : Nat) :
    SignatureVerificationData where
  signer := readBytes blob (i * 128 + (N * 14 + 2)) 32
  signature := readBytes blob (i * 128 + (N * 14 + 2) + 32) 64
  message := readBytes blob (i * 128 + (N * 14 + 2) + 32 + 64) 32

/-! ## Helper lemmas: hex encoding lengths and the hex round-trip -/

theorem natToHexAux_ne_nil (fuel n : Nat) : natToHexAux fuel n ≠ [] := by
  cases fuel with
  | zero => simp [natToHexAux]
  | succ fuel =>
    by_cases h : n < 16 <;> simp [natToHexAux, h]

theorem natToHexAux_length_le (fuel : Nat) :
    ∀ n k, 1 ≤ k → n < 16 ^ k → (natToHexAux fuel n).length ≤ k := by
  induction fuel with
  | zero => intro n k hk _; simpa [natToHexAux] using hk
  | succ fuel ih =>
    intro n k hk hn
    by_cases h : n < 16
    · simpa [natToHexAux, h] using hk
    · have hk2 : 2 ≤ k := by
        by_contra hlt
        have : k = 1 := by omega
        subst this
        simp [pow_one] at hn
        omega
      have hdiv : n / 16 < 16 ^ (k - 1) := by
        have h16 : 0 < 16 := by norm_num
        rw [Nat.div_lt_iff_lt_mul h16]
        calc n < 16 ^ k := hn
        _ = 16 ^ (k - 1) * 16 := by
              rw [← pow_succ]
              congr 1
              omega
      have := ih (n / 16) (k - 1) (by omega) hdiv
      simp only [natToHexAux, h, if_false, List.length_append, List.length_cons,
        List.length_nil]
      omega

theorem padZero_data_length_of_le (s : String) (len : Nat)
    (h : s.data.length ≤ len) : (padZero s len).data.length = len := by
  have hl : s.length = s.data.length := rfl
  simp [padZero]
  omega

/-- The two-character hex rendering of a byte. -/
theorem byteHex_data (b : Nat) (hb : b < 256) :
    (padZero (natToHex b) 2).data = [hexDigitChar (b / 16), hexDigitChar (b % 16)] := by
  by_cases h16 : b < 16
  · have hdata : (natToHex b).data = [hexDigitChar b] := by
      cases b with
      | zero => simp [natToHex, natToHexAux]
      | succ m => simp [natToHex, natToHexAux, h16]
    have hdiv : b / 16 = 0 := Nat.div_eq_of_lt h16
    have hmod : b % 16 = b := Nat.mod_eq_of_lt h16
    simp [padZero, hdata, hdiv, hmod, List.replicate]
    rfl
  · obtain ⟨f, rfl⟩ : ∃ f, b = f + 1 := ⟨b - 1, by omega⟩
    have hfpos : ∃ g, f = g + 1 := ⟨f - 1, by omega⟩
    obtain ⟨g, rfl⟩ := hfpos
    have hdivlt : (g + 1 + 1) / 16 < 16 := by omega
    have hdata : (natToHex (g + 1 + 1)).data =
        [hexDigitChar ((g + 1 + 1) / 16), hexDigitChar ((g + 1 + 1) % 16)] := by
      simp only [natToHex, natToHexAux, h16, if_false]
      simp [natToHexAux, hdivlt]
    simp [padZero, hdata]

theorem hexCharVal_hexDigitChar (d : Nat) (hd : d < 16) :
    hexCharVal (hexDigitChar d) = d := by
  interval_cases d <;> rfl

theorem hexDecodeCore_byteHex (b : Nat) (hb : b < 256) (rest : List Char) :
    hexDecodeCore ((padZero (natToHex b) 2).data ++ rest) = b :: hexDecodeCore rest := by
  rw [byteHex_data b hb]
  have h1 := hexCharVal_hexDigitChar (b / 16) (by omega)
  have h2 := hexCharVal_hexDigitChar (b % 16) (by omega)
  simp [hexDecodeCore, h1, h2]
  omega

/-- Decoding is a left inverse of byte-to-hex rendering on genuine bytes. -/
theorem hexDecode_bytesToHex (bs : List Nat) (h : ∀ b ∈ bs, b < 256) :
    hexDecode (bytesToHex bs) = bs := by
  induction bs with
  | nil => rfl
  | cons b rest ih =>
    have hb : b < 256 := h b (by simp)
    have hrest : ∀ x ∈ rest, x < 256 := fun x hx => h x (by simp [hx])
    have := ih hrest
    simp only [hexDecode, bytesToHex, List.map_cons, List.flatten_cons] at *
    rw [hexDecodeCore_byteHex b hb]
    simpa using this

theorem bytesToHex_data_length (bs : List Nat) (h : ∀ b ∈ bs, b < 256) :
    (bytesToHex bs).data.length = 2 * bs.length := by
  induction bs with
  | nil => rfl
  | cons b rest ih =>
    have hb : b < 256 := h b (by simp)
    have hrest : ∀ x ∈ rest, x < 256 := fun x hx => h x (by simp [hx])
    have hlen : (padZero (natToHex b) 2).data.length = 2 := by
      apply padZero_data_length_of_le
      have : (natToHex b).data.length ≤ 2 :=
        natToHexAux_length_le b b 2 (by omega) (by omega)
      exact this
    simp only [bytesToHex, List.map_cons, List.flatten_cons, List.length_append] at *
    rw [hlen, ih hrest]
    simp [List.length_cons]
    ring

theorem keccakBytes_length (msg : List Nat) : (keccakBytes msg).length = 32 := by
  simp [keccakBytes]

theorem keccakBytes_lt (msg : List Nat) : ∀ b ∈ keccakBytes msg, b < 256 := by
  intro b hb
  simp only [keccakBytes, List.mem_map] at hb
  obtain ⟨i, _, rfl⟩ := hb
  exact Nat.mod_lt _ (by norm_num)

theorem keccak256Hex_data_length (s : String) :
    (HashUtils.keccak256Hex s).data.length = 64 := by
  unfold HashUtils.keccak256Hex
  rw [bytesToHex_data_length _ (keccakBytes_lt _), keccakBytes_length]

theorem keccak256_data_length (s : String) :
    (HashUtils.keccak256 s).data.length = 64 := by
  unfold HashUtils.keccak256
  rw [bytesToHex_data_length _ (keccakBytes_lt _), keccakBytes_length]

theorem hexDecodeCore_length (l : List Char) :
    (hexDecodeCore l).length = (l.length + 1) / 2 := by
  induction l using hexDecodeCore.induct with
  | case1 => simp [hexDecodeCore]
  | case2 c => simp [hexDecodeCore]
  | case3 c1 c2 rest ih =>
    simp [hexDecodeCore, ih]
    omega

theorem hexDecode_length (s : String) :
    (hexDecode s).length = (s.data.length + 1) / 2 := hexDecodeCore_length s.data

/-- Both codecs always produce a 32-byte digest (the decoded 64-character
keccak-256 hex output). -/
theorem collateral_getWithdrawMessage_length
    (collateral sender receiver asset : List Nat) (withdraw : WithdrawCollateral)
    (salt : List Nat) (adminFundsNonce : Nat) :
    (Collateral.getWithdrawMessage collateral sender receiver asset withdraw salt
      adminFundsNonce).length = 32 := by
  unfold Collateral.getWithdrawMessage
  rw [hexDecode_length, keccak256Hex_data_length]

theorem coordinator_getWithdrawMessage_length
    (collateral coordinator sender receiver asset : List Nat)
    (withdraw : WithdrawCollateral) (adminFundsNonce : Nat) :
    (Coordinator.getWithdrawMessage collateral coordinator sender receiver asset
      withdraw adminFundsNonce).length = 32 := by
  unfold Coordinator.getWithdrawMessage
  rw [hexDecode_length, keccak256Hex_data_length]

/-! ## Helper lemmas: buffer writes and reads -/

theorem writeBytes_length (dest src : List Nat) (off : Nat)
    (h : off + src.length ≤ dest.length) :
    (writeBytes dest off src).length = dest.length := by
  simp [writeBytes]
  omega

theorem bget_writeBytes (dest src : List Nat) (off i : Nat)
    (h : off + src.length ≤ dest.length) :
    bget (writeBytes dest off src) i =
      if off ≤ i ∧ i < off + src.length then bget src (i - off) else bget dest i := by
  have hsrc : src.take (dest.length - off) = src :=
    List.take_of_length_le (by omega)
  have h1 : (dest.take off).length = off := by
    rw [List.length_take]
    omega
  have h2 : (dest.take off ++ src).length = off + src.length := by
    rw [List.length_append, h1]
  rw [writeBytes, hsrc]
  simp only [bget, List.getD_eq_getElem?_getD]
  by_cases hi : i < off
  · have hsplit : ((dest.take off ++ src) ++ dest.drop (off + src.length))[i]? =
        dest[i]? := by
      rw [List.getElem?_append_left (by rw [h2]; omega),
        List.getElem?_append_left (by rw [h1]; omega),
        List.getElem?_take, if_pos hi]
    rw [hsplit, if_neg (by omega)]
  · by_cases hi2 : i < off + src.length
    · have hsplit : ((dest.take off ++ src) ++ dest.drop (off + src.length))[i]? =
          src[i - off]? := by
        rw [List.getElem?_append_left (by rw [h2]; omega),
          List.getElem?_append_right (by rw [h1]; omega), h1]
      rw [hsplit, if_pos ⟨by omega, hi2⟩]
    · have hsplit : ((dest.take off ++ src) ++ dest.drop (off + src.length))[i]? =
          dest[i]? := by
        rw [List.getElem?_append_right (by rw [h2]; omega), h2, List.getElem?_drop]
        congr 1
        omega
      rw [hsplit, if_neg (by omega)]

theorem readBytes_length (b : List Nat) (off len : Nat) (h : off + len ≤ b.length) :
    (readBytes b off len).length = len := by
  simp [readBytes]
  omega

theorem bget_eq_getElem (l : List Nat) (n : Nat) (h : n < l.length) :
    l[n]? = some (bget l n) := by
  rw [List.getElem?_eq_getElem h, bget, List.getD_eq_getElem?_getD,
    List.getElem?_eq_getElem h]
  rfl

theorem readBytes_eq (b : List Nat) (off len : Nat) (ys : List Nat)
    (hys : ys.length = len) (hb : off + len ≤ b.length)
    (h : ∀ m, m < len → bget b (off + m) = bget ys m) :
    readBytes b off len = ys := by
  apply List.ext_getElem?
  intro n
  by_cases hn : n < len
  · have hbn : off + n < b.length := by omega
    have : (readBytes b off len)[n]? = b[off + n]? := by
      rw [readBytes, List.getElem?_take, if_pos hn, List.getElem?_drop]
    rw [this, bget_eq_getElem b (off + n) hbn, bget_eq_getElem ys n (by omega),
      h n hn]
  · have h1 : (readBytes b off len)[n]? = none := by
      apply List.getElem?_eq_none
      rw [readBytes_length b off len hb]
      omega
    have h2 : ys[n]? = none := by
      apply List.getElem?_eq_none
      omega
    rw [h1, h2]

/-! ## Helper lemmas: the instruction builder -/

theorem bget_writeBytes_outside (dest src : List Nat) (off i : Nat)
    (h : off + src.length ≤ dest.length) (hout : i < off ∨ off + src.length ≤ i) :
    bget (writeBytes dest off src) i = bget dest i := by
  rw [bget_writeBytes dest src off i h, if_neg]
  omega

theorem bget_writeBytes_inside (dest src : List Nat) (off i : Nat)
    (h : off + src.length ≤ dest.length) (h1 : off ≤ i) (h2 : i < off + src.length) :
    bget (writeBytes dest off src) i = bget src (i - off) := by
  rw [bget_writeBytes dest src off i h, if_pos ⟨h1, h2⟩]

namespace Ed25519ExtendedProgram

theorem descBytes_length (i start : Nat) : (descBytes i start).length = 14 := by
  simp [descBytes, le16]

theorem wu16_0 (a0 a1 a2 a3 a4 a5 a6 a7 a8 a9 a10 a11 a12 a13 v : Nat) :
    writeUInt16LE [a0, a1, a2, a3, a4, a5, a6, a7, a8, a9, a10, a11, a12, a13] v 0 =
      [v % 256, v / 256 % 256, a2, a3, a4, a5, a6, a7, a8, a9, a10, a11, a12, a13] := rfl

theorem wu16_2 (a0 a1 a2 a3 a4 a5 a6 a7 a8 a9 a10 a11 a12 a13 v : Nat) :
    writeUInt16LE [a0, a1, a2, a3, a4, a5, a6, a7, a8, a9, a10, a11, a12, a13] v 2 =
      [a0, a1, v % 256, v / 256 % 256, a4, a5, a6, a7, a8, a9, a10, a11, a12, a13] := rfl

theorem wu16_4 (a0 a1 a2 a3 a4 a5 a6 a7 a8 a9 a10 a11 a12 a13 v : Nat) :
    writeUInt16LE [a0, a1, a2, a3, a4, a5, a6, a7, a8, a9, a10, a11, a12, a13] v 4 =
      [a0, a1, a2, a3, v % 256, v / 256 % 256, a6, a7, a8, a9, a10, a11, a12, a13] := rfl

theorem wu16_6 (a0 a1 a2 a3 a4 a5 a6 a7 a8 a9 a10 a11 a12 a13 v : Nat) :
    writeUInt16LE [a0, a1, a2, a3, a4, a5, a6, a7, a8, a9, a10, a11, a12, a13] v 6 =
      [a0, a1, a2, a3, a4, a5, v % 256, v / 256 % 256, a8, a9, a10, a11, a12, a13] := rfl

theorem wu16_8 (a0 a1 a2 a3 a4 a5 a6 a7 a8 a9 a10 a11 a12 a13 v : Nat) :
    writeUInt16LE [a0, a1, a2, a3, a4, a5, a6, a7, a8, a9, a10, a11, a12, a13] v 8 =
      [a0, a1, a2, a3, a4, a5, a6, a7, v % 256, v / 256 % 256, a10, a11, a12, a13] := rfl

theorem wu16_10 (a0 a1 a2 a3 a4 a5 a6 a7 a8 a9 a10 a11 a12 a13 v : Nat) :
    writeUInt16LE [a0, a1, a2, a3, a4, a5, a6, a7, a8, a9, a10, a11, a12, a13] v 10 =
      [a0, a1, a2, a3, a4, a5, a6, a7, a8, a9, v % 256, v / 256 % 256, a12, a13] := rfl

theorem wu16_12 (a0 a1 a2 a3 a4 a5 a6 a7 a8 a9 a10 a11 a12 a13 v : Nat) :
    writeUInt16LE [a0, a1, a2, a3, a4, a5, a6, a7, a8, a9, a10, a11, a12, a13] v 12 =
      [a0, a1, a2, a3, a4, a5, a6, a7, a8, a9, a10, a11, v % 256, v / 256 % 256] := rfl

theorem toBuffer_eq_descBytes (i start : Nat) :
    SignatureStructure.toBuffer i start = descBytes i start := by
  show writeUInt16LE (writeUInt16LE (writeUInt16LE (writeUInt16LE (writeUInt16LE
      (writeUInt16LE (writeUInt16LE [0, 0, 0, 0, 0, 0, 0, 0, 0, 0, 0, 0, 0, 0]
        (SignatureStructure.signatureOffset i start) 0)
      INSTRUCTION_INDEX 2)
      (SignatureStructure.publicKeyOffset i start) 4)
      INSTRUCTION_INDEX 6)
      (SignatureStructure.messageOffset i start) 8)
      MESSAGE_SIZE 10)
      INSTRUCTION_INDEX 12 = descBytes i start
  rw [wu16_0, wu16_2, wu16_4, wu16_6, wu16_8, wu16_10, wu16_12]
  simp [descBytes, le16, INSTRUCTION_INDEX, MESSAGE_SIZE]

theorem offsets_eq (i start : Nat) :
    SignatureStructure.structureOffset i = i * 14 + 2 ∧
    SignatureStructure.publicKeyOffset i start = i * 128 + start ∧
    SignatureStructure.signatureOffset i start = i * 128 + start + 32 ∧
    SignatureStructure.messageOffset i start = i * 128 + start + 96 := by
  refine ⟨rfl, rfl, ?_, ?_⟩ <;>
    simp [SignatureStructure.signatureOffset, SignatureStructure.messageOffset,
      SignatureStructure.publicKeyOffset, SIGNATURE_DATA_SIZE, PUBKEY_SIZE,
      SIGNATURE_SIZE, MESSAGE_SIZE]

/-- Unfolding of one loop iteration whose entry passes both size checks. -/
theorem writeLoop_cons (startOff : Nat) (e : SignatureVerificationData)
    (rest : List SignatureVerificationData) (i : Nat) (buf : List Nat)
    (h64 : e.signature.length = 64) (h32 : e.message.length = 32) :
    writeLoop startOff (e :: rest) i buf =
      writeLoop startOff rest (i + 1)
        (writeBytes
          (writeBytes
            (writeBytes
              (writeBytes buf (SignatureStructure.structureOffset i)
                (SignatureStructure.toBuffer i startOff))
              (SignatureStructure.publicKeyOffset i startOff) e.signer)
            (SignatureStructure.signatureOffset i startOff) e.signature)
          (SignatureStructure.messageOffset i startOff) e.message) := by
  simp only [writeLoop]
  rw [if_neg (by simp [h64, SIGNATURE_SIZE]), if_neg (by simp [h32, MESSAGE_SIZE])]

set_option maxHeartbeats 1600000 in
theorem writeLoop_spec (N : Nat) :
    ∀ (rest : List SignatureVerificationData) (i : Nat) (buf : List Nat),
    i + rest.length = N →
    buf.length = N * 142 + 2 →
    (∀ e ∈ rest, e.signer.length = 32 ∧ e.signature.length = 64 ∧
      e.message.length = 32) →
    ∃ out, writeLoop (N * 14 + 2) rest i buf = .ok out ∧
      out.length = N * 142 + 2 ∧
      (∀ p, p < i * 14 + 2 → bget out p = bget buf p) ∧
      (∀ p, N * 14 + 2 ≤ p → p < N * 14 + 2 + i * 128 → bget out p = bget buf p) ∧
      (∀ k, (hk : k < rest.length) → entryCorrect out N (i + k) (rest.get ⟨k, hk⟩)) := by
  intro rest
  induction rest with
  | nil =>
    intro i buf _ hlen _
    exact ⟨buf, rfl, hlen, fun _ _ => rfl, fun _ _ _ => rfl, fun k hk => absurd hk (by simp)⟩
  | cons e rest ih =>
    intro i buf hN hlen hval
    obtain ⟨hsigner, hsig, hmsg⟩ := hval e (List.mem_cons_self e rest)
    have hi : i < N := by
      simp [List.length_cons] at hN
      omega
    obtain ⟨hso, hpo, hsi, hmo⟩ := offsets_eq i (N * 14 + 2)
    have htb_len : (SignatureStructure.toBuffer i (N * 14 + 2)).length = 14 := by
      rw [toBuffer_eq_descBytes, descBytes_length]
    -- the four writes of this iteration, named
    obtain ⟨buf1, hbuf1⟩ : ∃ x, writeBytes buf (SignatureStructure.structureOffset i)
        (SignatureStructure.toBuffer i (N * 14 + 2)) = x := ⟨_, rfl⟩
    obtain ⟨buf2, hbuf2⟩ : ∃ x, writeBytes buf1
        (SignatureStructure.publicKeyOffset i (N * 14 + 2)) e.signer = x := ⟨_, rfl⟩
    obtain ⟨buf3, hbuf3⟩ : ∃ x, writeBytes buf2
        (SignatureStructure.signatureOffset i (N * 14 + 2)) e.signature = x := ⟨_, rfl⟩
    obtain ⟨buf4, hbuf4⟩ : ∃ x, writeBytes buf3
        (SignatureStructure.messageOffset i (N * 14 + 2)) e.message = x := ⟨_, rfl⟩
    have hin1 : SignatureStructure.structureOffset i +
        (SignatureStructure.toBuffer i (N * 14 + 2)).length ≤ buf.length := by
      simp only [htb_len, hso, hlen]; omega
    have hlen1 : buf1.length = N * 142 + 2 := by
      rw [← hbuf1, writeBytes_length _ _ _ hin1, hlen]
    have hin2 : SignatureStructure.publicKeyOffset i (N * 14 + 2) + e.signer.length ≤
        buf1.length := by
      simp only [hsigner, hpo, hlen1]; omega
    have hlen2 : buf2.length = N * 142 + 2 := by
      rw [← hbuf2, writeBytes_length _ _ _ hin2, hlen1]
    have hin3 : SignatureStructure.signatureOffset i (N * 14 + 2) + e.signature.length ≤
        buf2.length := by
      simp only [hsig, hsi, hlen2]; omega
    have hlen3 : buf3.length = N * 142 + 2 := by
      rw [← hbuf3, writeBytes_length _ _ _ hin3, hlen2]
    have hin4 : SignatureStructure.messageOffset i (N * 14 + 2) + e.message.length ≤
        buf3.length := by
      simp only [hmsg, hmo, hlen3]; omega
    have hlen4 : buf4.length = N * 142 + 2 := by
      rw [← hbuf4, writeBytes_length _ _ _ hin4, hlen3]
    -- byte values of buf4 everywhere
    have hb4_out : ∀ p, (p < i * 14 + 2 ∨ (N * 14 + 2 ≤ p ∧ p < N * 14 + 2 + i * 128)) →
        bget buf4 p = bget buf p := by
      intro p hp
      rw [← hbuf4, bget_writeBytes_outside _ _ _ _ hin4
          (by simp only [hmsg, hmo]; omega),
        ← hbuf3, bget_writeBytes_outside _ _ _ _ hin3
          (by simp only [hsig, hsi]; omega),
        ← hbuf2, bget_writeBytes_outside _ _ _ _ hin2
          (by simp only [hsigner, hpo]; omega),
        ← hbuf1, bget_writeBytes_outside _ _ _ _ hin1
          (by simp only [htb_len, hso]; omega)]
    have hb4_desc : ∀ m, m < 14 →
        bget buf4 (i * 14 + 2 + m) = bget (descBytes i (N * 14 + 2)) m := by
      intro m hm
      rw [← hbuf4, bget_writeBytes_outside _ _ _ _ hin4
          (by simp only [hmsg, hmo]; omega),
        ← hbuf3, bget_writeBytes_outside _ _ _ _ hin3
          (by simp only [hsig, hsi]; omega),
        ← hbuf2, bget_writeBytes_outside _ _ _ _ hin2
          (by simp only [hsigner, hpo]; omega),
        ← hbuf1, bget_writeBytes_inside _ _ _ _ hin1 (by simp only [hso]; omega)
          (by simp only [htb_len, hso]; omega),
        toBuffer_eq_descBytes]
      congr 1
      simp only [hso]
      omega
    have hb4_pk : ∀ m, m < 32 →
        bget buf4 (N * 14 + 2 + i * 128 + m) = bget e.signer m := by
      intro m hm
      rw [← hbuf4, bget_writeBytes_outside _ _ _ _ hin4
          (by simp only [hmsg, hmo]; omega),
        ← hbuf3, bget_writeBytes_outside _ _ _ _ hin3
          (by simp only [hsig, hsi]; omega),
        ← hbuf2, bget_writeBytes_inside _ _ _ _ hin2 (by simp only [hpo]; omega)
          (by simp only [hsigner, hpo]; omega)]
      congr 1
      simp only [hpo]
      omega
    have hb4_sig : ∀ m, m < 64 →
        bget buf4 (N * 14 + 2 + i * 128 + 32 + m) = bget e.signature m := by
      intro m hm
      rw [← hbuf4, bget_writeBytes_outside _ _ _ _ hin4
          (by simp only [hmsg, hmo]; omega),
        ← hbuf3, bget_writeBytes_inside _ _ _ _ hin3 (by simp only [hsi]; omega)
          (by simp only [hsig, hsi]; omega)]
      congr 1
      simp only [hsi]
      omega
    have hb4_msg : ∀ m, m < 32 →
        bget buf4 (N * 14 + 2 + i * 128 + 96 + m) = bget e.message m := by
      intro m hm
      rw [← hbuf4, bget_writeBytes_inside _ _ _ _ hin4 (by simp only [hmo]; omega)
          (by simp only [hmsg, hmo]; omega)]
      congr 1
      simp only [hmo]
      omega
    -- run the rest of the loop
    obtain ⟨out, hrun, hlen_out, hpres1, hpres2, hentries⟩ :=
      ih (i + 1) buf4 (by simp [List.length_cons] at hN ⊢; omega) hlen4
        (fun x hx => hval x (List.mem_cons_of_mem e hx))
    refine ⟨out, ?_, hlen_out, ?_, ?_, ?_⟩
    · rw [writeLoop_cons _ _ _ _ _ hsig hmsg, hbuf1, hbuf2, hbuf3, hbuf4]
      exact hrun
    · intro p hp
      rw [hpres1 p (by omega), hb4_out p (Or.inl (by omega))]
    · intro p hp1 hp2
      rw [hpres2 p hp1 (by omega), hb4_out p (Or.inr ⟨hp1, by omega⟩)]
    · intro k hk
      cases k with
      | zero =>
        show entryCorrect out N i e
        refine ⟨?_, ?_, ?_, ?_⟩
        · intro m hm
          rw [hpres1 (i * 14 + 2 + m) (by omega), hb4_desc m hm]
        · intro m hm
          rw [hpres2 (N * 14 + 2 + i * 128 + m) (by omega) (by omega), hb4_pk m hm]
        · intro m hm
          rw [hpres2 (N * 14 + 2 + i * 128 + 32 + m) (by omega) (by omega), hb4_sig m hm]
        · intro m hm
          rw [hpres2 (N * 14 + 2 + i * 128 + 96 + m) (by omega) (by omega), hb4_msg m hm]
      | succ k =>
        have hk' : k < rest.length := by
          simp [List.length_cons] at hk
          omega
        have := hentries k hk'
        have harith : i + 1 + k = i + (k + 1) := by omega
        rw [harith] at this
        simpa using this

/-- The successful run of the builder: the count check passes, the loop
succeeds, and every descriptor and data segment is in place. -/
theorem create_ok_spec (entries : List SignatureVerificationData)
    (h255 : entries.length ≤ 255)
    (hval : ∀ e ∈ entries, e.signer.length = 32 ∧ e.signature.length = 64 ∧
      e.message.length = 32) :
    ∃ blob, createSignatureVerificationInstruction entries = .ok blob ∧
      blob.length = entries.length * 142 + 2 ∧
      bget blob 0 = entries.length ∧
      (∀ j, (hj : j < entries.length) →
        entryCorrect blob entries.length j (entries.get ⟨j, hj⟩)) := by
  have hstep : createSignatureVerificationInstruction entries =
      writeLoop (entries.length * 14 + 2) entries 0
        (writeBytes (List.replicate (entries.length * 142 + 2) 0) 0
          [entries.length]) := by
    unfold createSignatureVerificationInstruction writeUInt8E
    dsimp only
    rw [if_pos h255]
    norm_num [SIGNATURE_DATA_PLUS_STRUCTURE_SIZE, SIGNATURE_STRUCTURE_SIZE,
      SIGNATURE_DATA_SIZE, PUBKEY_SIZE, SIGNATURE_SIZE, MESSAGE_SIZE]
  have hb0in : (0 : Nat) + ([entries.length] : List Nat).length ≤
      (List.replicate (entries.length * 142 + 2) (0 : Nat)).length := by
    simp
  have hlen1 : (writeBytes (List.replicate (entries.length * 142 + 2) 0) 0
      [entries.length]).length = entries.length * 142 + 2 := by
    rw [writeBytes_length _ _ _ hb0in]
    simp
  obtain ⟨out, hrun, hlen_out, hpres1, _, hentries⟩ :=
    writeLoop_spec entries.length entries 0 _ (by simp) hlen1 hval
  refine ⟨out, ?_, hlen_out, ?_, ?_⟩
  · rw [hstep, hrun]
  · rw [hpres1 0 (by omega),
      bget_writeBytes_inside _ _ _ _ hb0in (by omega) (by simp)]
    rfl
  · intro j hj
    have := hentries j hj
    simpa using this

/-- An entry failing a size check makes the loop throw one of the two
`InvalidEntrySize` error strings. -/
theorem writeLoop_error (startOff : Nat) :
    ∀ (rest : List SignatureVerificationData) (i : Nat) (buf : List Nat),
    (∃ e ∈ rest, e.signature.length ≠ 64 ∨ e.message.length ≠ 32) →
    ∃ msg, writeLoop startOff rest i buf = .error msg ∧ isInvalidEntrySizeError msg := by
  intro rest
  induction rest with
  | nil =>
    intro i buf hbad
    simp at hbad
  | cons e rest ih =>
    intro i buf hbad
    by_cases hsig : e.signature.length = 64
    · by_cases hmsg : e.message.length = 32
      · have hbad' : ∃ x ∈ rest, x.signature.length ≠ 64 ∨ x.message.length ≠ 32 := by
          obtain ⟨x, hx, hxbad⟩ := hbad
          rcases List.mem_cons.mp hx with rfl | hx'
          · cases hxbad with
            | inl h => exact absurd hsig h
            | inr h => exact absurd hmsg h
          · exact ⟨x, hx', hxbad⟩
        rw [writeLoop_cons _ _ _ _ _ hsig hmsg]
        exact ih (i + 1) _ hbad'
      · refine ⟨"Message size must be 32 bytes", ?_, Or.inr rfl⟩
        simp only [writeLoop]
        rw [if_neg (by simp [hsig, SIGNATURE_SIZE]),
          if_pos (by simp [MESSAGE_SIZE]; exact hmsg)]
    · refine ⟨"Signature size must be 64 bytes", ?_, Or.inl rfl⟩
      simp only [writeLoop]
      rw [if_pos (by simp [SIGNATURE_SIZE]; exact hsig)]

/-- With an in-range count, a bad-size entry fails the whole call with an
`InvalidEntrySize` error. -/
theorem create_error_spec (entries : List SignatureVerificationData)
    (h255 : entries.length ≤ 255)
    (hbad : ∃ e ∈ entries, e.signature.length ≠ 64 ∨ e.message.length ≠ 32) :
    ∃ msg, createSignatureVerificationInstruction entries = .error msg ∧
      isInvalidEntrySizeError msg := by
  have hstep : createSignatureVerificationInstruction entries =
      writeLoop (entries.length * SIGNATURE_STRUCTURE_SIZE + 2) entries 0
        (writeBytes (List.replicate
          (entries.length * SIGNATURE_DATA_PLUS_STRUCTURE_SIZE + 2) 0) 0
          [entries.length]) := by
    unfold createSignatureVerificationInstruction writeUInt8E
    dsimp only
    rw [if_pos h255]
  rw [hstep]
  exact writeLoop_error _ entries 0 _ hbad

/-- With an out-of-range count the `writeUInt8` range check fails first,
before any entry validation. -/
theorem create_count_error (entries : List SignatureVerificationData)
    (h : 255 < entries.length) :
    createSignatureVerificationInstruction entries =
      .error "The value of value is out of range. It must be >= 0 and <= 255." := by
  unfold createSignatureVerificationInstruction writeUInt8E
  dsimp only
  rw [if_neg (by omega)]

end Ed25519ExtendedProgram

/-! ## Helper lemmas: string structure of the encoded messages -/

theorem joinAll_data (l : List String) :
    (joinAll l).data = (l.map String.data).flatten := rfl

theorem encodeUInt64_data_length_ge (v : Nat) :
    16 ≤ (HashUtils.encodeUInt64 v).data.length := by
  simp [HashUtils.encodeUInt64, padZero]
  omega

theorem collateral_type_hash_data_length :
    Collateral.WITHDRAW_TYPE_HASH.data.length = 64 := by
  unfold Collateral.WITHDRAW_TYPE_HASH HashUtils.encodeString
  exact keccak256_data_length _

theorem coordinator_type_hash_data_length :
    Coordinator.WITHDRAW_TYPE_HASH.data.length = 64 := by
  unfold Coordinator.WITHDRAW_TYPE_HASH HashUtils.encodeString
  exact keccak256_data_length _

theorem encode_data_length : Collateral.encode.data.length = 4 := by decide

theorem coordinator_encode_data_length : Coordinator.encode.data.length = 4 := by decide

theorem collateral_domainSeparator_data_length (name version : String) (chainId : Nat)
    (verifyingContract salt : List Nat) :
    (Collateral.domainSeparatorEncode name version chainId verifyingContract
      salt).data.length = 64 := by
  unfold Collateral.domainSeparatorEncode
  exact keccak256Hex_data_length _

theorem coordinator_domainSeparator_data_length (name version : String) (chainId : Nat)
    (verifyingContract salt : List Nat) :
    (Coordinator.domainSeparatorEncode name version chainId verifyingContract
      salt).data.length = 64 := by
  unfold Coordinator.domainSeparatorEncode
  exact keccak256Hex_data_length _

/-- A codec digest equals the raw keccak bytes of its decoded input. -/
theorem collateral_getWithdrawMessage_eq_keccak
    (collateral sender receiver asset : List Nat) (withdraw : WithdrawCollateral)
    (salt : List Nat) (adminFundsNonce : Nat) :
    Collateral.getWithdrawMessage collateral sender receiver asset withdraw salt
        adminFundsNonce =
      keccakBytes (hexDecode (Collateral.withdrawDataEncoded collateral sender
        receiver asset withdraw salt adminFundsNonce)) := by
  unfold Collateral.getWithdrawMessage HashUtils.keccak256Hex
  exact hexDecode_bytesToHex _ (keccakBytes_lt _)

theorem coordinator_getWithdrawMessage_eq_keccak
    (collateral coordinator sender receiver asset : List Nat)
    (withdraw : WithdrawCollateral) (adminFundsNonce : Nat) :
    Coordinator.getWithdrawMessage collateral coordinator sender receiver asset
        withdraw adminFundsNonce =
      keccakBytes (hexDecode (Coordinator.withdrawDataEncoded collateral coordinator
        sender receiver asset withdraw adminFundsNonce)) := by
  unfold Coordinator.getWithdrawMessage HashUtils.keccak256Hex
  exact hexDecode_bytesToHex _ (keccakBytes_lt _)

/-! ## Claim C1 -/

/-- C1: for every custody field set (32-byte collateral, sender, receiver and
asset addresses, amount, admin-funds nonce, 32-byte salt),
`Collateral.getWithdrawMessage` returns exactly the digest described by the
claim (spelled out in `c1SpecDigest`), for any expiry and coordinator salt
carried in the request record (the custody codec does not use them). -/
theorem c1_custody_digest
    (collateral sender receiver asset salt csalt : List Nat)
    (amount nonce expiry : Nat)
    (hc : collateral.length = 32) (hs : sender.length = 32)
    (hr : receiver.length = 32) (ha : asset.length = 32)
    (hsalt : salt.length = 32) :
    Collateral.getWithdrawMessage collateral sender receiver asset
        ⟨amount, expiry, csalt⟩ salt nonce =
      c1SpecDigest collateral sender receiver asset salt amount nonce := rfl

/-- Witness for C1 at a concrete field set. -/
theorem c1_custody_digest_witness :
    ((List.replicate 32 0 : List Nat).length = 32 ∧
      (List.replicate 32 1 : List Nat).length = 32 ∧
      (List.replicate 32 2 : List Nat).length = 32 ∧
      (List.replicate 32 3 : List Nat).length = 32 ∧
      (List.replicate 32 4 : List Nat).length = 32) ∧
    Collateral.getWithdrawMessage (List.replicate 32 0) (List.replicate 32 1)
        (List.replicate 32 2) (List.replicate 32 3)
        ⟨1000000, 1763066371, List.replicate 32 4⟩ (List.replicate 32 4) 7 =
      c1SpecDigest (List.replicate 32 0) (List.replicate 32 1)
        (List.replicate 32 2) (List.replicate 32 3) (List.replicate 32 4)
        1000000 7 :=
  ⟨⟨by simp, by simp, by simp, by simp, by simp⟩,
    c1_custody_digest (List.replicate 32 0) (List.replicate 32 1)
      (List.replicate 32 2) (List.replicate 32 3) (List.replicate 32 4)
      (List.replicate 32 4) 1000000 7 1763066371
      (by simp) (by simp) (by simp) (by simp) (by simp)⟩

/-! ## Claim C2 -/

/-- C2: for structurally identical field sets (same collateral, sender,
receiver, asset, amount, nonce, expiry and salt), the coordinator-kind final
digest differs from the custody-kind final digest.  The two type strings are
distinct, so the type hashes differ, and the coordinator struct input
additionally carries the trailing `encodeUInt64 expiresAt` field; the digests
can then only coincide through a keccak-256 collision, which the two
hypotheses exclude for the concrete inputs at hand (collision freedom of the
hash on the struct inputs and on the final inputs). -/
theorem c2_kind_separation
    (collateral coordinator sender receiver asset salt : List Nat)
    (amount nonce expiry : Nat)
    (hcoll1 : HashUtils.keccak256Hex (Coordinator.withdrawStructEncoded collateral
          sender receiver asset ⟨amount, expiry, salt⟩ nonce) =
        HashUtils.keccak256Hex (Collateral.withdrawStructEncoded collateral sender
          receiver asset ⟨amount, expiry, salt⟩ nonce) →
      Coordinator.withdrawStructEncoded collateral sender receiver asset
          ⟨amount, expiry, salt⟩ nonce =
        Collateral.withdrawStructEncoded collateral sender receiver asset
          ⟨amount, expiry, salt⟩ nonce)
    (hcoll2 : HashUtils.keccak256Hex (Coordinator.withdrawDataEncoded collateral
          coordinator sender receiver asset ⟨amount, expiry, salt⟩ nonce) =
        HashUtils.keccak256Hex (Collateral.withdrawDataEncoded collateral sender
          receiver asset ⟨amount, expiry, salt⟩ salt nonce) →
      Coordinator.withdrawDataEncoded collateral coordinator sender receiver asset
          ⟨amount, expiry, salt⟩ nonce =
        Collateral.withdrawDataEncoded collateral sender receiver asset
          ⟨amount, expiry, salt⟩ salt nonce) :
    Coordinator.WITHDRAW_TYPE_HASH ≠ Collateral.WITHDRAW_TYPE_HASH ∧
    Coordinator.getWithdrawMessage collateral coordinator sender receiver asset
        ⟨amount, expiry, salt⟩ nonce ≠
      Collateral.getWithdrawMessage collateral sender receiver asset
        ⟨amount, expiry, salt⟩ salt nonce := by
  refine ⟨by decide, ?_⟩
  intro heq
  rw [coordinator_getWithdrawMessage_eq_keccak, collateral_getWithdrawMessage_eq_keccak]
    at heq
  have hhex : HashUtils.keccak256Hex (Coordinator.withdrawDataEncoded collateral
      coordinator sender receiver asset ⟨amount, expiry, salt⟩ nonce) =
      HashUtils.keccak256Hex (Collateral.withdrawDataEncoded collateral sender
        receiver asset ⟨amount, expiry, salt⟩ salt nonce) := by
    unfold HashUtils.keccak256Hex
    rw [heq]
  have hfin := hcoll2 hhex
  -- strip the 0x1901 prefix and the 64-character domain separator
  have hdata := congrArg String.data hfin
  rw [Coordinator.withdrawDataEncoded, Collateral.withdrawDataEncoded,
    joinAll_data, joinAll_data] at hdata
  simp only [List.map_cons, List.map_nil, List.flatten_cons, List.flatten_nil] at hdata
  have henc : (Coordinator.encode.data).length = (Collateral.encode.data).length := by
    rw [encode_data_length, coordinator_encode_data_length]
  have hstep1 := (List.append_inj hdata henc).2
  have hds : (Coordinator.domainSeparatorEncode "Coordinator" "2" 900 coordinator
      salt).data.length = (Collateral.domainSeparatorEncode "Collateral" "2" 900
      collateral salt).data.length := by
    rw [coordinator_domainSeparator_data_length, collateral_domainSeparator_data_length]
  have hstep2 := (List.append_inj hstep1 hds).2
  simp only [List.append_nil] at hstep2
  have hsh : Coordinator.encodeWithdrawMessage collateral sender receiver asset
      ⟨amount, expiry, salt⟩ nonce = Collateral.encodeWithdrawMessage collateral
      sender receiver asset ⟨amount, expiry, salt⟩ nonce :=
    String.ext hstep2
  rw [Coordinator.encodeWithdrawMessage, Collateral.encodeWithdrawMessage] at hsh
  have hstruct := hcoll1 hsh
  -- the struct inputs cannot be equal: the coordinator one is 16 characters longer
  have hlen := congrArg (fun s => s.data.length) hstruct
  simp only [Coordinator.withdrawStructEncoded, Collateral.withdrawStructEncoded,
    joinAll_data, List.map_cons, List.map_nil, List.flatten_cons, List.flatten_nil,
    List.length_append, List.length_nil] at hlen
  have h1 := coordinator_type_hash_data_length
  have h2 := collateral_type_hash_data_length
  have h3 := encodeUInt64_data_length_ge expiry
  omega

/-- Witness for C2 at a concrete field set: the collision-freedom hypotheses
are discharged by computing the four hashes. -/
theorem c2_kind_separation_witness :
    Coordinator.WITHDRAW_TYPE_HASH ≠ Collateral.WITHDRAW_TYPE_HASH ∧
    Coordinator.getWithdrawMessage (List.replicate 32 0) (List.replicate 32 6)
        (List.replicate 32 1) (List.replicate 32 2) (List.replicate 32 3)
        ⟨1000000, 1763066371, List.replicate 32 4⟩ 7 ≠
      Collateral.getWithdrawMessage (List.replicate 32 0) (List.replicate 32 1)
        (List.replicate 32 2) (List.replicate 32 3)
        ⟨1000000, 1763066371, List.replicate 32 4⟩ (List.replicate 32 4) 7 :=
  c2_kind_separation (List.replicate 32 0) (List.replicate 32 6)
    (List.replicate 32 1) (List.replicate 32 2) (List.replicate 32 3)
    (List.replicate 32 4) 1000000 7 1763066371
    (by decide) (by decide)

/-! ## Claim C10 -/

/-- C10 (implicit): every digest produced by either codec is exactly 32 bytes
long — the 64-character keccak-256 hex output decoded to bytes — and so always
meets the `MESSAGE_SIZE` precondition of
`createSignatureVerificationInstruction`. -/
theorem c10_digest_length
    (collateral coordinator sender receiver asset : List Nat)
    (withdraw : WithdrawCollateral) (salt : List Nat) (adminFundsNonce : Nat) :
    (Collateral.getWithdrawMessage collateral sender receiver asset withdraw salt
      adminFundsNonce).length = MESSAGE_SIZE ∧
    (Coordinator.getWithdrawMessage collateral coordinator sender receiver asset
      withdraw adminFundsNonce).length = MESSAGE_SIZE :=
  ⟨collateral_getWithdrawMessage_length collateral sender receiver asset withdraw
      salt adminFundsNonce,
    coordinator_getWithdrawMessage_length collateral coordinator sender receiver
      asset withdraw adminFundsNonce⟩

/-! ## Claim C7 -/

/-- C7 counterexample: at a concrete input whose salt is 33 bytes long and
whose nonce is `2 ^ 36 ≥ 2 ^ 32`, the codec raises no error and still produces
a 32-byte digest — contrary to the claim that such inputs fail with
`InvalidFieldEncoding` before any hashing.  (The codecs are total: the source
contains no validation or `throw` on any of these paths, and `encodeUInt32`
simply renders the oversized nonce with 10 hex characters.) -/
theorem c7_counterexample :
    (List.replicate 33 0 : List Nat).length ≠ 32 ∧
    2 ^ 32 ≤ (2 ^ 36 : Nat) ∧
    (HashUtils.encodeUInt32 (2 ^ 36)).data.length = 10 ∧
    (Collateral.getWithdrawMessage (List.replicate 32 0) (List.replicate 32 1)
      (List.replicate 32 2) (List.replicate 32 3)
      ⟨1000000, 1763066371, List.replicate 33 0⟩ (List.replicate 33 0)
      (2 ^ 36)).length = 32 :=
  ⟨by decide, by decide, by decide,
    collateral_getWithdrawMessage_length _ _ _ _ _ _ _⟩

/-- C7 amended: the codecs perform no input validation.  A salt of any length
and numeric fields of any size are encoded as given (oversized values render
with more hex digits than their declared width) and a 32-byte digest is still
produced; no `InvalidFieldEncoding` failure exists in the code. -/
theorem c7_amended_no_validation
    (collateral coordinator sender receiver asset salt : List Nat)
    (amount nonce expiry : Nat)
    (hbad : salt.length ≠ 32 ∨ 2 ^ 32 ≤ nonce ∨ 2 ^ 64 ≤ amount) :
    (Collateral.getWithdrawMessage collateral sender receiver asset
      ⟨amount, expiry, salt⟩ salt nonce).length = 32 ∧
    (Coordinator.getWithdrawMessage collateral coordinator sender receiver asset
      ⟨amount, expiry, salt⟩ nonce).length = 32 :=
  ⟨collateral_getWithdrawMessage_length _ _ _ _ _ _ _,
    coordinator_getWithdrawMessage_length _ _ _ _ _ _ _⟩

/-- Witness for the amended C7. -/
theorem c7_amended_no_validation_witness :
    ((List.replicate 33 0 : List Nat).length ≠ 32 ∨ 2 ^ 32 ≤ (7 : Nat) ∨
      2 ^ 64 ≤ (1000000 : Nat)) ∧
    ((Collateral.getWithdrawMessage (List.replicate 32 0) (List.replicate 32 1)
        (List.replicate 32 2) (List.replicate 32 3)
        ⟨1000000, 1763066371, List.replicate 33 0⟩ (List.replicate 33 0) 7).length = 32 ∧
      (Coordinator.getWithdrawMessage (List.replicate 32 0) (List.replicate 32 6)
        (List.replicate 32 1) (List.replicate 32 2) (List.replicate 32 3)
        ⟨1000000, 1763066371, List.replicate 33 0⟩ 7).length = 32) :=
  ⟨Or.inl (by decide),
    c7_amended_no_validation (List.replicate 32 0) (List.replicate 32 6)
      (List.replicate 32 1) (List.replicate 32 2) (List.replicate 32 3)
      (List.replicate 33 0) 1000000 7 1763066371 (Or.inl (by decide))⟩

/-! ## Claim C3 -/

/-- C3: for every list of 1–255 valid entries, the produced blob has the
entry count in byte 0, the 14-byte descriptor of entry `i` at offset
`2 + i*14` holding the seven little-endian 16-bit fields (signature offset,
sentinel, public-key offset, sentinel, message offset, message length 32,
sentinel), and the data region holds per entry the 32-byte public key, the
64-byte signature and the 32-byte message at
`publicKeyOffset = i*128 + dataRegionStart`, `signatureOffset =
publicKeyOffset + 32`, `messageOffset = signatureOffset + 64`, with
`dataRegionStart = N*14 + 2`. -/
theorem c3_blob_layout (entries : List SignatureVerificationData)
    (hn : 1 ≤ entries.length) (h255 : entries.length ≤ 255)
    (hval : ∀ e ∈ entries, e.signer.length = 32 ∧ e.signature.length = 64 ∧
      e.message.length = 32) :
    ∃ blob, Ed25519ExtendedProgram.createSignatureVerificationInstruction entries =
        .ok blob ∧
      bget blob 0 = entries.length ∧
      (∀ i, (hi : i < entries.length) →
        readBytes blob (2 + i * 14) 14 =
          le16 (i * 128 + (entries.length * 14 + 2) + 32) ++
            le16 INSTRUCTION_INDEX ++
            le16 (i * 128 + (entries.length * 14 + 2)) ++
            le16 INSTRUCTION_INDEX ++
            le16 (i * 128 + (entries.length * 14 + 2) + 32 + 64) ++
            le16 MESSAGE_SIZE ++
            le16 INSTRUCTION_INDEX ∧
        readBytes blob (i * 128 + (entries.length * 14 + 2)) 32 =
          (entries.get ⟨i, hi⟩).signer ∧
        readBytes blob (i * 128 + (entries.length * 14 + 2) + 32) 64 =
          (entries.get ⟨i, hi⟩).signature ∧
        readBytes blob (i * 128 + (entries.length * 14 + 2) + 32 + 64) 32 =
          (entries.get ⟨i, hi⟩).message) := by
  obtain ⟨blob, hok, hlen, hb0, hentries⟩ :=
    Ed25519ExtendedProgram.create_ok_spec entries h255 hval
  refine ⟨blob, hok, hb0, ?_⟩
  intro i hi
  obtain ⟨hdesc, hpk, hsg, hms⟩ := hentries i hi
  obtain ⟨h32, h64, hm32⟩ := hval _ (entries.get_mem i hi)
  obtain ⟨hso, hpo, hsi, hmo⟩ := Ed25519ExtendedProgram.offsets_eq i
    (entries.length * 14 + 2)
  have hdesc_eq : Ed25519ExtendedProgram.descBytes i (entries.length * 14 + 2) =
      le16 (i * 128 + (entries.length * 14 + 2) + 32) ++
        le16 INSTRUCTION_INDEX ++
        le16 (i * 128 + (entries.length * 14 + 2)) ++
        le16 INSTRUCTION_INDEX ++
        le16 (i * 128 + (entries.length * 14 + 2) + 32 + 64) ++
        le16 MESSAGE_SIZE ++
        le16 INSTRUCTION_INDEX := by
    rw [Ed25519ExtendedProgram.descBytes, hsi, hpo, hmo,
      show i * 128 + (entries.length * 14 + 2) + 96 =
        i * 128 + (entries.length * 14 + 2) + 32 + 64 from by omega]
  refine ⟨?_, ?_, ?_, ?_⟩
  · rw [show 2 + i * 14 = i * 14 + 2 from by omega, ← hdesc_eq]
    apply readBytes_eq
    · exact Ed25519ExtendedProgram.descBytes_length _ _
    · rw [hlen]; omega
    · exact hdesc
  · apply readBytes_eq
    · exact h32
    · rw [hlen]; omega
    · intro m hm
      rw [show i * 128 + (entries.length * 14 + 2) + m =
        entries.length * 14 + 2 + i * 128 + m from by omega]
      exact hpk m hm
  · apply readBytes_eq
    · exact h64
    · rw [hlen]; omega
    · intro m hm
      rw [show i * 128 + (entries.length * 14 + 2) + 32 + m =
        entries.length * 14 + 2 + i * 128 + 32 + m from by omega]
      exact hsg m hm
  · apply readBytes_eq
    · exact hm32
    · rw [hlen]; omega
    · intro m hm
      rw [show i * 128 + (entries.length * 14 + 2) + 32 + 64 + m =
        entries.length * 14 + 2 + i * 128 + 96 + m from by omega]
      exact hms m hm

/-- Witness for C3 with a single concrete entry. -/
theorem c3_blob_layout_witness :
    (1 ≤ ([⟨List.replicate 32 1, List.replicate 64 2, List.replicate 32 3⟩] :
        List SignatureVerificationData).length ∧
      ([⟨List.replicate 32 1, List.replicate 64 2, List.replicate 32 3⟩] :
        List SignatureVerificationData).length ≤ 255) ∧
    ∃ blob, Ed25519ExtendedProgram.createSignatureVerificationInstruction
        [⟨List.replicate 32 1, List.replicate 64 2, List.replicate 32 3⟩] =
        .ok blob ∧
      bget blob 0 = ([⟨List.replicate 32 1, List.replicate 64 2,
        List.replicate 32 3⟩] :
        List SignatureVerificationData).length ∧
      (∀ i, (hi : i < ([⟨List.replicate 32 1, List.replicate 64 2,
          List.replicate 32 3⟩] :
          List SignatureVerificationData).length) →
        readBytes blob (2 + i * 14) 14 =
          le16 (i * 128 + (([⟨List.replicate 32 1, List.replicate 64 2,
              List.replicate 32 3⟩] :
              List SignatureVerificationData).length * 14 + 2) +
              32) ++
            le16 INSTRUCTION_INDEX ++
            le16 (i * 128 + (([⟨List.replicate 32 1, List.replicate 64 2,
              List.replicate 32 3⟩] :
              List SignatureVerificationData).length * 14 + 2)) ++
            le16 INSTRUCTION_INDEX ++
            le16 (i * 128 + (([⟨List.replicate 32 1, List.replicate 64 2,
              List.replicate 32 3⟩] :
              List SignatureVerificationData).length * 14 + 2) +
              32 + 64) ++
            le16 MESSAGE_SIZE ++
            le16 INSTRUCTION_INDEX ∧
        readBytes blob (i * 128 + (([⟨List.replicate 32 1, List.replicate 64 2,
            List.replicate 32 3⟩] :
            List SignatureVerificationData).length * 14 + 2)) 32 =
          (([⟨List.replicate 32 1, List.replicate 64 2, List.replicate 32 3⟩] :
            List SignatureVerificationData).get ⟨i, hi⟩).signer ∧
        readBytes blob (i * 128 + (([⟨List.replicate 32 1, List.replicate 64 2,
            List.replicate 32 3⟩] :
            List SignatureVerificationData).length * 14 + 2) +
            32) 64 =
          (([⟨List.replicate 32 1, List.replicate 64 2, List.replicate 32 3⟩] :
            List SignatureVerificationData).get
            ⟨i, hi⟩).signature ∧
        readBytes blob (i * 128 + (([⟨List.replicate 32 1, List.replicate 64 2,
            List.replicate 32 3⟩] :
            List SignatureVerificationData).length * 14 + 2) +
            32 + 64) 32 =
          (([⟨List.replicate 32 1, List.replicate 64 2, List.replicate 32 3⟩] :
            List SignatureVerificationData).get
            ⟨i, hi⟩).message) :=
  ⟨⟨by simp, by simp⟩,
    c3_blob_layout [⟨List.replicate 32 1, List.replicate 64 2, List.replicate 32 3⟩]
      (by simp) (by simp)
      (by intro e he; simp at he; subst he; refine ⟨by simp, by simp, by simp⟩)⟩

/-! ## Claim C4 -/

/-- C4: round-trip — for every valid list of 1–255 entries, reading the blob
back at the documented offsets reconstructs byte-identical public keys,
signatures and messages for every entry. -/
theorem c4_roundtrip (entries : List SignatureVerificationData)
    (hn : 1 ≤ entries.length) (h255 : entries.length ≤ 255)
    (hval : ∀ e ∈ entries, e.signer.length = 32 ∧ e.signature.length = 64 ∧
      e.message.length = 32) :
    ∃ blob, Ed25519ExtendedProgram.createSignatureVerificationInstruction entries =
        .ok blob ∧
      ∀ i, (hi : i < entries.length) →
        c4DecodeEntry blob entries.length i = entries.get ⟨i, hi⟩ := by
  obtain ⟨blob, hok, hlen, _, hentries⟩ :=
    Ed25519ExtendedProgram.create_ok_spec entries h255 hval
  refine ⟨blob, hok, ?_⟩
  intro i hi
  obtain ⟨_, hpk, hsg, hms⟩ := hentries i hi
  obtain ⟨h32, h64, hm32⟩ := hval _ (entries.get_mem i hi)
  have e1 : readBytes blob (i * 128 + (entries.length * 14 + 2)) 32 =
      (entries.get ⟨i, hi⟩).signer := by
    apply readBytes_eq _ _ _ _ h32 (by rw [hlen]; omega)
    intro m hm
    rw [show i * 128 + (entries.length * 14 + 2) + m =
      entries.length * 14 + 2 + i * 128 + m from by omega]
    exact hpk m hm
  have e2 : readBytes blob (i * 128 + (entries.length * 14 + 2) + 32) 64 =
      (entries.get ⟨i, hi⟩).signature := by
    apply readBytes_eq _ _ _ _ h64 (by rw [hlen]; omega)
    intro m hm
    rw [show i * 128 + (entries.length * 14 + 2) + 32 + m =
      entries.length * 14 + 2 + i * 128 + 32 + m from by omega]
    exact hsg m hm
  have e3 : readBytes blob (i * 128 + (entries.length * 14 + 2) + 32 + 64) 32 =
      (entries.get ⟨i, hi⟩).message := by
    apply readBytes_eq _ _ _ _ hm32 (by rw [hlen]; omega)
    intro m hm
    rw [show i * 128 + (entries.length * 14 + 2) + 32 + 64 + m =
      entries.length * 14 + 2 + i * 128 + 96 + m from by omega]
    exact hms m hm
  rw [c4DecodeEntry, e1, e2, e3]

/-- Witness for C4 with a single concrete entry. -/
theorem c4_roundtrip_witness :
    (1 ≤ ([⟨List.replicate 32 1, List.replicate 64 2, List.replicate 32 3⟩] :
        List SignatureVerificationData).length ∧
      ([⟨List.replicate 32 1, List.replicate 64 2, List.replicate 32 3⟩] :
        List SignatureVerificationData).length ≤ 255) ∧
    ∃ blob, Ed25519ExtendedProgram.createSignatureVerificationInstruction
        [⟨List.replicate 32 1, List.replicate 64 2, List.replicate 32 3⟩] =
        .ok blob ∧
      ∀ i, (hi : i < ([⟨List.replicate 32 1, List.replicate 64 2,
          List.replicate 32 3⟩] :
          List SignatureVerificationData).length) →
        c4DecodeEntry blob ([⟨List.replicate 32 1, List.replicate 64 2,
          List.replicate 32 3⟩] :
          List SignatureVerificationData).length i =
          ([⟨List.replicate 32 1, List.replicate 64 2, List.replicate 32 3⟩] :
            List SignatureVerificationData).get ⟨i, hi⟩ :=
  ⟨⟨by simp, by simp⟩,
    c4_roundtrip [⟨List.replicate 32 1, List.replicate 64 2, List.replicate 32 3⟩]
      (by simp) (by simp)
      (by intro e he; simp at he; subst he; refine ⟨by simp, by simp, by simp⟩)⟩

/-! ## Claim C6 -/

/-- C6 counterexample: for a 256-entry list whose entries all have a 63-byte
signature, the call does fail — but with the count range error raised by
`writeUInt8` before any entry validation, not with an `InvalidEntrySize`
error, refuting the claim as stated for lists longer than 255. -/
theorem c6_counterexample :
    (∃ e ∈ List.replicate 256 (⟨List.replicate 32 0, List.replicate 63 0,
        List.replicate 32 0⟩ : SignatureVerificationData),
      e.signature.length ≠ 64 ∨ e.message.length ≠ 32) ∧
    Ed25519ExtendedProgram.createSignatureVerificationInstruction
      (List.replicate 256 ⟨List.replicate 32 0, List.replicate 63 0,
        List.replicate 32 0⟩) =
      .error "The value of value is out of range. It must be >= 0 and <= 255." ∧
    ¬ Ed25519ExtendedProgram.isInvalidEntrySizeError
      "The value of value is out of range. It must be >= 0 and <= 255." :=
  ⟨⟨⟨List.replicate 32 0, List.replicate 63 0, List.replicate 32 0⟩,
      by simp [List.mem_replicate], Or.inl (by simp)⟩,
    Ed25519ExtendedProgram.create_count_error _ (by simp),
    by decide⟩

/-- C6 amended: for every entry list of at most 255 entries, a signature not
exactly 64 bytes or a message not exactly 32 bytes makes the call fail with an
`InvalidEntrySize` error (one of the two size-error strings thrown before the
offending entry's offsets are used), and no blob is returned; for longer lists
the call also fails, but with the count range error, raised before entry
validation. -/
theorem c6_amended_invalid_entry_size
    (entries : List SignatureVerificationData)
    (h255 : entries.length ≤ 255)
    (hbad : ∃ e ∈ entries, e.signature.length ≠ 64 ∨ e.message.length ≠ 32) :
    ∃ msg, Ed25519ExtendedProgram.createSignatureVerificationInstruction entries =
        .error msg ∧
      Ed25519ExtendedProgram.isInvalidEntrySizeError msg :=
  Ed25519ExtendedProgram.create_error_spec entries h255 hbad

/-- Witness for the amended C6. -/
theorem c6_amended_invalid_entry_size_witness :
    (([⟨List.replicate 32 0, List.replicate 63 0, List.replicate 32 0⟩] :
        List SignatureVerificationData).length ≤ 255) ∧
    ∃ msg, Ed25519ExtendedProgram.createSignatureVerificationInstruction
        [⟨List.replicate 32 0, List.replicate 63 0, List.replicate 32 0⟩] =
        .error msg ∧
      Ed25519ExtendedProgram.isInvalidEntrySizeError msg :=
  ⟨by simp,
    c6_amended_invalid_entry_size
      [⟨List.replicate 32 0, List.replicate 63 0, List.replicate 32 0⟩]
      (by simp)
      ⟨⟨List.replicate 32 0, List.replicate 63 0, List.replicate 32 0⟩,
        by simp, Or.inl (by simp)⟩⟩

/-! ## Helper lemmas: the submission branch condition -/

/-- The source's skip condition: the fetched account exists and its signers
list contains the sender. -/
theorem submit_branch_condition (fetched : Option CollateralAdminSignatures)
    (senderPk : List Nat) :
    shouldSubmit fetched senderPk = true ↔
      ¬ ∃ acc, fetched = some acc ∧ senderPk ∈ acc.signers := by
  unfold shouldSubmit
  cases fetched with
  | none => simp
  | some acc =>
    simp only [List.all_eq_true, Bool.not_eq_true', beq_eq_false_iff_ne]
    constructor
    · rintro h ⟨acc', hacc', hmem⟩
      cases hacc'
      exact h senderPk hmem rfl
    · intro h x hx hxe
      exact h ⟨acc, rfl, hxe ▸ hx⟩

/-! ## Claim C5 -/

/-- C5: if the fetched approval-record account exists and already lists the
sender among its signers, `submitCollateralSignature` makes no transport call
(and in particular constructs and submits no verification instruction) and
just returns the derived record address; a submission happens exactly when
the account is absent or the sender is not among the recorded signers.  The
sender key is 32 bytes and the detached signature 64 bytes, as produced by
the key pair and `nacl.sign.detached`. -/
theorem c5_idempotent_submission
    (collateralAddress senderPk recipientAddress mintAddress : List Nat)
    (withdrawRequest : WithdrawCollateral) (collateralMessageSalt : List Nat)
    (adminFundsNonce : Nat) (senderSignature pda : List Nat)
    (fetched : Option CollateralAdminSignatures) (sendResult : Except String String)
    (hpk : senderPk.length = 32) (hsig : senderSignature.length = 64) :
    ((∃ acc, fetched = some acc ∧ senderPk ∈ acc.signers) →
      (submitCollateralSignatureModel collateralAddress senderPk recipientAddress
        mintAddress withdrawRequest collateralMessageSalt adminFundsNonce
        senderSignature pda fetched sendResult).calls = [] ∧
      (submitCollateralSignatureModel collateralAddress senderPk recipientAddress
        mintAddress withdrawRequest collateralMessageSalt adminFundsNonce
        senderSignature pda fetched sendResult).result = .ok pda) ∧
    ((submitCollateralSignatureModel collateralAddress senderPk recipientAddress
        mintAddress withdrawRequest collateralMessageSalt adminFundsNonce
        senderSignature pda fetched sendResult).calls ≠ [] ↔
      ¬ ∃ acc, fetched = some acc ∧ senderPk ∈ acc.signers) := by
  obtain ⟨blob, hok, _, _, _⟩ := Ed25519ExtendedProgram.create_ok_spec
    [⟨senderPk, senderSignature, Collateral.getWithdrawMessage collateralAddress
      senderPk recipientAddress mintAddress withdrawRequest collateralMessageSalt
      adminFundsNonce⟩]
    (by simp only [List.length_singleton]; omega)
    (by
      intro e he
      have he' := List.mem_singleton.mp he
      subst he'
      dsimp only
      exact ⟨hpk, hsig, collateral_getWithdrawMessage_length _ _ _ _ _ _ _⟩)
  by_cases hcond : ∃ acc, fetched = some acc ∧ senderPk ∈ acc.signers
  · have hfalse : ¬ (shouldSubmit fetched senderPk = true) := by
      rw [submit_branch_condition]
      simpa using hcond
    refine ⟨fun _ => ?_, ?_⟩
    · simp only [submitCollateralSignatureModel]
      rw [if_neg hfalse]
      exact ⟨rfl, rfl⟩
    · simp only [submitCollateralSignatureModel]
      rw [if_neg hfalse]
      exact ⟨fun hne => absurd rfl hne, fun hn => absurd hcond hn⟩
  · have htrue : shouldSubmit fetched senderPk = true :=
      (submit_branch_condition fetched senderPk).mpr hcond
    refine ⟨fun h => absurd h hcond, ?_⟩
    simp only [submitCollateralSignatureModel]
    rw [if_pos htrue, hok]
    cases sendResult <;> simpa using hcond

/-- Witness for C5: the fetched record already lists the sender, so no call is
made and the derived address is returned. -/
theorem c5_idempotent_submission_witness :
    ((List.replicate 32 1 : List Nat).length = 32 ∧
      (List.replicate 64 9 : List Nat).length = 64) ∧
    ((∃ acc, (some ⟨[List.replicate 32 1]⟩ :
        Option CollateralAdminSignatures) = some acc ∧
        List.replicate 32 1 ∈ acc.signers) →
      (submitCollateralSignatureModel (List.replicate 32 0) (List.replicate 32 1)
        (List.replicate 32 2) (List.replicate 32 3)
        ⟨1000000, 1763066371, List.replicate 32 4⟩ (List.replicate 32 4) 7
        (List.replicate 64 9) (List.replicate 32 8)
        (some ⟨[List.replicate 32 1]⟩) (.ok "tx")).calls = [] ∧
      (submitCollateralSignatureModel (List.replicate 32 0) (List.replicate 32 1)
        (List.replicate 32 2) (List.replicate 32 3)
        ⟨1000000, 1763066371, List.replicate 32 4⟩ (List.replicate 32 4) 7
        (List.replicate 64 9) (List.replicate 32 8)
        (some ⟨[List.replicate 32 1]⟩) (.ok "tx")).result =
        .ok (List.replicate 32 8)) ∧
    ((submitCollateralSignatureModel (List.replicate 32 0) (List.replicate 32 1)
        (List.replicate 32 2) (List.replicate 32 3)
        ⟨1000000, 1763066371, List.replicate 32 4⟩ (List.replicate 32 4) 7
        (List.replicate 64 9) (List.replicate 32 8)
        (some ⟨[List.replicate 32 1]⟩) (.ok "tx")).calls ≠ [] ↔
      ¬ ∃ acc, (some ⟨[List.replicate 32 1]⟩ :
          Option CollateralAdminSignatures) = some acc ∧
        List.replicate 32 1 ∈ acc.signers) :=
  ⟨⟨by simp, by simp⟩,
    c5_idempotent_submission (List.replicate 32 0) (List.replicate 32 1)
      (List.replicate 32 2) (List.replicate 32 3)
      ⟨1000000, 1763066371, List.replicate 32 4⟩ (List.replicate 32 4) 7
      (List.replicate 64 9) (List.replicate 32 8)
      (some ⟨[List.replicate 32 1]⟩) (.ok "tx") (by simp) (by simp)⟩

/-! ## Claim C8 -/

/-- C8: resolving the coordinating authority's approver fails with the
no-executors error (the spec's `NoApproverConfigured`) exactly when the
executor list is missing or empty, and otherwise selects the first listed
executor as the verification signer. -/
theorem c8_executor_resolution (executors : Option (List (List Nat))) :
    (resolveExecutor executors =
        .error "Not executors found in the given coordinator" ↔
      executors = none ∨ executors = some []) ∧
    resolveExecutor executors = (match executors with
      | some (h :: _) => .ok h
      | some [] => .error "Not executors found in the given coordinator"
      | none => .error "Not executors found in the given coordinator") := by
  cases executors with
  | none => simp [resolveExecutor]
  | some es =>
    cases es with
    | nil => simp [resolveExecutor]
    | cons h t => simp [resolveExecutor, List.find?]

/-! ## Claim C9 -/

/-- C9 counterexample: when no approval record exists yet and the submitted
transaction fails with a duplicate-approval reason (e.g. because a racing
submitter recorded the approval first), the orchestrator propagates the
failure instead of treating the outcome as success: the source has no
try/catch around `sendAndConfirmTransaction` and inspects no failure reason. -/
theorem c9_counterexample :
    (submitCollateralSignatureModel (List.replicate 32 0) (List.replicate 32 1)
      (List.replicate 32 2) (List.replicate 32 3)
      ⟨1000000, 1763066371, List.replicate 32 4⟩ (List.replicate 32 4) 7
      (List.replicate 64 9) (List.replicate 32 8) none
      (.error "custom program error: approval already submitted")).result =
      .error "custom program error: approval already submitted" ∧
    (submitCollateralSignatureModel (List.replicate 32 0) (List.replicate 32 1)
      (List.replicate 32 2) (List.replicate 32 3)
      ⟨1000000, 1763066371, List.replicate 32 4⟩ (List.replicate 32 4) 7
      (List.replicate 64 9) (List.replicate 32 8) none
      (.error "custom program error: approval already submitted")).result ≠
      .ok (List.replicate 32 8) := by
  obtain ⟨blob, hok, _, _, _⟩ := Ed25519ExtendedProgram.create_ok_spec
    [⟨List.replicate 32 1, List.replicate 64 9,
      Collateral.getWithdrawMessage (List.replicate 32 0) (List.replicate 32 1)
        (List.replicate 32 2) (List.replicate 32 3)
        ⟨1000000, 1763066371, List.replicate 32 4⟩ (List.replicate 32 4) 7⟩]
    (by simp only [List.length_singleton]; omega)
    (by
      intro e he
      have he' := List.mem_singleton.mp he
      subst he'
      dsimp only
      exact ⟨by simp, by simp, collateral_getWithdrawMessage_length _ _ _ _ _ _ _⟩)
  have h1 : (submitCollateralSignatureModel (List.replicate 32 0)
      (List.replicate 32 1) (List.replicate 32 2) (List.replicate 32 3)
      ⟨1000000, 1763066371, List.replicate 32 4⟩ (List.replicate 32 4) 7
      (List.replicate 64 9) (List.replicate 32 8) none
      (.error "custom program error: approval already submitted")).result =
      .error "custom program error: approval already submitted" := by
    simp only [submitCollateralSignatureModel]
    rw [hok]
    rfl
  refine ⟨h1, ?_⟩
  rw [h1]
  simp

/-- C9 amended: when a submission actually happens (no prior approval by the
sender) and the transport reports a failure, `submitCollateralSignature`
surfaces that failure unmodified to the caller, whatever its reason —
duplicate-approval failures included; the code performs no inspection of the
failure reason.  Idempotence is achieved only by the pre-submission existence
check. -/
theorem c9_amended_failure_propagation
    (collateralAddress senderPk recipientAddress mintAddress : List Nat)
    (withdrawRequest : WithdrawCollateral) (collateralMessageSalt : List Nat)
    (adminFundsNonce : Nat) (senderSignature pda : List Nat)
    (fetched : Option CollateralAdminSignatures) (reason : String)
    (hpk : senderPk.length = 32) (hsig : senderSignature.length = 64)
    (hnm : ¬ ∃ acc, fetched = some acc ∧ senderPk ∈ acc.signers) :
    ∃ instr, (submitCollateralSignatureModel collateralAddress senderPk
        recipientAddress mintAddress withdrawRequest collateralMessageSalt
        adminFundsNonce senderSignature pda fetched (.error reason)).calls =
        [instr] ∧
      (submitCollateralSignatureModel collateralAddress senderPk recipientAddress
        mintAddress withdrawRequest collateralMessageSalt adminFundsNonce
        senderSignature pda fetched (.error reason)).result = .error reason := by
  obtain ⟨blob, hok, _, _, _⟩ := Ed25519ExtendedProgram.create_ok_spec
    [⟨senderPk, senderSignature, Collateral.getWithdrawMessage collateralAddress
      senderPk recipientAddress mintAddress withdrawRequest collateralMessageSalt
      adminFundsNonce⟩]
    (by simp only [List.length_singleton]; omega)
    (by
      intro e he
      have he' := List.mem_singleton.mp he
      subst he'
      dsimp only
      exact ⟨hpk, hsig, collateral_getWithdrawMessage_length _ _ _ _ _ _ _⟩)
  have htrue : shouldSubmit fetched senderPk = true :=
    (submit_branch_condition fetched senderPk).mpr hnm
  refine ⟨blob, ?_, ?_⟩ <;>
    · simp only [submitCollateralSignatureModel]
      rw [if_pos htrue, hok]

/-- Witness for the amended C9 at a concrete input with a duplicate-approval
failure reason. -/
theorem c9_amended_failure_propagation_witness :
    ((List.replicate 32 1 : List Nat).length = 32 ∧
      (List.replicate 64 9 : List Nat).length = 64 ∧
      ¬ ∃ acc, (none : Option CollateralAdminSignatures) = some acc ∧
        List.replicate 32 1 ∈ acc.signers) ∧
    ∃ instr, (submitCollateralSignatureModel (List.replicate 32 0)
        (List.replicate 32 1) (List.replicate 32 2) (List.replicate 32 3)
        ⟨1000000, 1763066371, List.replicate 32 4⟩ (List.replicate 32 4) 7
        (List.replicate 64 9) (List.replicate 32 8) none
        (.error "custom program error: approval already submitted")).calls =
        [instr] ∧
      (submitCollateralSignatureModel (List.replicate 32 0) (List.replicate 32 1)
        (List.replicate 32 2) (List.replicate 32 3)
        ⟨1000000, 1763066371, List.replicate 32 4⟩ (List.replicate 32 4) 7
        (List.replicate 64 9) (List.replicate 32 8) none
        (.error "custom program error: approval already submitted")).result =
        .error "custom program error: approval already submitted" :=
  ⟨⟨by simp, by simp, by simp⟩,
    c9_amended_failure_propagation (List.replicate 32 0) (List.replicate 32 1)
      (List.replicate 32 2) (List.replicate 32 3)
      ⟨1000000, 1763066371, List.replicate 32 4⟩ (List.replicate 32 4) 7
      (List.replicate 64 9) (List.replicate 32 8) none
      "custom program error: approval already submitted"
      (by simp) (by simp) (by simp)⟩

end Rain
